import Mathlib

/-!
Verification of the LED-grid SPI slave controller
(`esp32_led_controller/src/main.cpp`), the board target that realises the
full command set of the specification: frame decoding, the
logical-to-physical address translator, reconfiguration with tail
zeroing, and the diagnostics counters.

The embedding is shallow: the mutable globals of the firmware become the
fields of `State`, the pixel buffer `CRGB leds[MAX_TOTAL_LEDS]` becomes a
function `Nat → CRGB`, a received frame becomes a byte function
`Nat → Nat` (every read is truncated with `% 256`, the value range of the
`uint8_t` buffer cells) together with its length, and `process_command`
becomes a pure function from a state and a frame to a new state plus a
flag recording whether the command was rejected as malformed (the paths
that print a warning and return early).  Calls to the external strip
output driver (`FastLED.show()`) are counted in the field `show_calls`.
The C `uint32_t` counters wrap at 2 ^ 32 and the `uint16_t` values wrap
at 2 ^ 16; the wraps are written out as explicit `% 4294967296` and
`% 65536` where the source can overflow or convert.
-/

set_option autoImplicit false

namespace LedGrid

/-- Compile-time capacity bound `MAX_STRIPS` of the firmware. -/
def MAX_STRIPS : Nat := 7

/-- Compile-time capacity bound `MAX_LEDS_PER_STRIP` of the firmware. -/
def MAX_LEDS_PER_STRIP : Nat := 500

/-- Capacity of the physical pixel buffer, `MAX_STRIPS * MAX_LEDS_PER_STRIP`. -/
def MAX_TOTAL_LEDS : Nat := MAX_STRIPS * MAX_LEDS_PER_STRIP

def CMD_SET_PIXEL : Nat := 0x01
def CMD_SET_BRIGHTNESS : Nat := 0x02
def CMD_SHOW : Nat := 0x03
def CMD_CLEAR : Nat := 0x04
def CMD_SET_RANGE : Nat := 0x05
def CMD_SET_ALL : Nat := 0x06
def CMD_CONFIG : Nat := 0x07
def CMD_PING : Nat := 0xFF

/-- One pixel color: three 8-bit channels, as the `CRGB` struct of the source. -/
structure CRGB where
  r : Nat
  g : Nat
  b : Nat
deriving DecidableEq, Repr

/-- The idle color `CRGB::Black` used to blank unaddressed slots. -/
def CRGB.black : CRGB := ⟨0, 0, 0⟩

/-- The mutable globals of the firmware that the command decoder touches.
`leds` is the fixed-capacity physical buffer (indices below
`MAX_TOTAL_LEDS` are meaningful); `show_calls` counts the hand-offs of the
buffer to the external output driver (`FastLED.show()`), which is not a
variable of the source but an observable external call. -/
@[ext]
structure State where
  leds : Nat → CRGB
  active_strips : Nat
  leds_per_strip : Nat
  total_leds : Nat
  global_brightness : Nat
  frames_rendered : Nat
  zero_payload_packets : Nat
  show_calls : Nat
  debug_logging : Bool

/-- Buffer write `leds[i] = c`. -/
def setLed (leds : Nat → CRGB) (i : Nat) (c : CRGB) : Nat → CRGB :=
  fun p => if p = i then c else leds p

/-- A counted loop of buffer writes: iteration `k` (for `k < n`) performs
`leds[g k] = v k`, in increasing order of `k`. -/
def writeRange (leds : Nat → CRGB) (n : Nat) (g : Nat → Nat) (v : Nat → CRGB) : Nat → CRGB :=
  (List.range n).foldl (fun acc k => setLed acc (g k) (v k)) leds

/-- The doubly nested zeroing loop shape of the source: for each strip
`s0 + k` with `k < n`, blank the offsets `o0 ≤ offset < MAX_LEDS_PER_STRIP`
of that strip (`leds[strip * MAX_LEDS_PER_STRIP + offset] = CRGB::Black`). -/
def blackoutTail (leds : Nat → CRGB) (s0 n o0 : Nat) : Nat → CRGB :=
  (List.range n).foldl
    (fun acc k =>
      writeRange acc (MAX_LEDS_PER_STRIP - o0)
        (fun j => (s0 + k) * MAX_LEDS_PER_STRIP + (o0 + j))
        (fun _ => CRGB.black))
    leds

/-- Accumulated bitwise OR of the bytes `data[1] .. data[n]`, the loop
`for (i = 1; i < length; ++i) payload_or |= data[i]` with `n = length - 1`. -/
def orFold (data : Nat → Nat) (n : Nat) : Nat :=
  (List.range n).foldl (fun acc k => acc ||| data (k + 1) % 256) 0

/-- The zero-payload pre-check value: bitwise OR of all payload bytes of the
frame, excluding the opcode byte. -/
def payload_or (data : Nat → Nat) (length : Nat) : Nat :=
  orFold data (length - 1)

/-- The address translator `logical_to_physical` of the source.  The two
`+ 65535) % 65536` terms are the `uint16_t` images of `active_strips - 1`
and `leds_per_strip - 1` (they wrap to 65535 only in the unreachable case
that the stored value is zero), and the final `% 65536` is the conversion
of the `int` sum to the `uint16_t` return type. -/
def logical_to_physical (active_strips leds_per_strip logical : Nat) : Nat :=
  let strip := logical / leds_per_strip
  let offset := logical % leds_per_strip
  let strip2 := if active_strips ≤ strip then (active_strips + 65535) % 65536 else strip
  let offset2 := if active_strips ≤ strip then (leds_per_strip + 65535) % 65536 else offset
  (strip2 * MAX_LEDS_PER_STRIP + offset2) % 65536

/-- Body of the `CMD_SET_RANGE` write loop: iteration `i` (with `rem`
iterations remaining) writes logical pixel `start + i` from the payload
triple at byte offset `4 + i * 3`, after the in-loop guard
`if (logical >= total_leds) break`. -/
def setRangeLoop (active_strips leds_per_strip total_leds : Nat) (data : Nat → Nat)
    (start : Nat) : Nat → Nat → (Nat → CRGB) → (Nat → CRGB)
  | _, 0, leds => leds
  | i, rem + 1, leds =>
      if total_leds ≤ start + i then leds
      else
        setRangeLoop active_strips leds_per_strip total_leds data start (i + 1) rem
          (setLed leds (logical_to_physical active_strips leds_per_strip (start + i))
            ⟨data (4 + i * 3) % 256, data (4 + i * 3 + 1) % 256, data (4 + i * 3 + 2) % 256⟩)

/-- The `switch (cmd)` statement of `process_command`.  The scrutinee
`data 0 % 256` is the opcode byte (`cmd` in the source).  The returned
flag is `true` exactly on the malformed-frame paths that log a warning and
return without mutating anything (the `⚠️ ... too short` / expected-size /
out-of-range branches).  Multi-byte big-endian fields
`(data[hi] << 8) | data[lo]` are written `hi * 256 + lo`, the value of the
bit-or of the two disjoint byte ranges. -/
def dispatch (s : State) (data : Nat → Nat) (length : Nat) : State × Bool :=
  if data 0 % 256 = CMD_PING then
    (s, false)
  else if data 0 % 256 = CMD_SET_PIXEL then
    if length < 6 then (s, true)
    else
      let pixel := (data 1 % 256) * 256 + data 2 % 256
      if pixel < s.total_leds then
        ({ s with
            leds := setLed s.leds
              (logical_to_physical s.active_strips s.leds_per_strip pixel)
              ⟨data 3 % 256, data 4 % 256, data 5 % 256⟩ }, false)
      else
        (s, false)
  else if data 0 % 256 = CMD_SET_BRIGHTNESS then
    if length < 2 then (s, true)
    else ({ s with global_brightness := data 1 % 256 }, false)
  else if data 0 % 256 = CMD_SHOW then
    ({ s with
        frames_rendered := (s.frames_rendered + 1) % 4294967296,
        show_calls := s.show_calls + 1 }, false)
  else if data 0 % 256 = CMD_CLEAR then
    ({ s with
        leds := blackoutTail (blackoutTail s.leds 0 s.active_strips 0)
          s.active_strips (MAX_STRIPS - s.active_strips) 0,
        frames_rendered := (s.frames_rendered + 1) % 4294967296,
        show_calls := s.show_calls + 1 }, false)
  else if data 0 % 256 = CMD_SET_RANGE then
    if length < 4 then (s, true)
    else
      let start := (data 1 % 256) * 256 + data 2 % 256
      if s.total_leds ≤ start then (s, false)
      else
        let count := data 3 % 256
        if length < 4 + count * 3 then (s, true)
        else
          let count2 := if s.total_leds < start + count
            then (s.total_leds - start) % 256 else count
          ({ s with
              leds := setRangeLoop s.active_strips s.leds_per_strip s.total_leds
                data start 0 count2 s.leds }, false)
  else if data 0 % 256 = CMD_SET_ALL then
    if length < 1 + s.total_leds * 3 then (s, true)
    else
      ({ s with
          leds := blackoutTail
            (blackoutTail
              (writeRange s.leds s.total_leds
                (fun logical => logical_to_physical s.active_strips s.leds_per_strip logical)
                (fun logical =>
                  ⟨data (1 + logical * 3) % 256, data (1 + logical * 3 + 1) % 256,
                    data (1 + logical * 3 + 2) % 256⟩))
              0 s.active_strips s.leds_per_strip)
            s.active_strips (MAX_STRIPS - s.active_strips) 0,
          frames_rendered := (s.frames_rendered + 1) % 4294967296,
          show_calls := s.show_calls + 1 }, false)
  else if data 0 % 256 = CMD_CONFIG then
    if length < 4 then (s, true)
    else
      let new_strips := data 1 % 256
      let new_len := (data 2 % 256) * 256 + data 3 % 256
      if new_strips = 0 ∨ MAX_STRIPS < new_strips then (s, true)
      else if new_len = 0 ∨ MAX_LEDS_PER_STRIP < new_len then (s, true)
      else
        let s2 : State :=
          { s with
              active_strips := new_strips,
              leds_per_strip := new_len,
              total_leds := new_strips * new_len % 65536,
              leds := blackoutTail (blackoutTail s.leds 0 new_strips new_len)
                new_strips (MAX_STRIPS - new_strips) 0,
              show_calls := s.show_calls + 1 }
        (if 5 ≤ length then { s2 with debug_logging := data 4 % 256 != 0 } else s2, false)
  else
    (s, false)

/-- The zero-payload pre-check of `process_command`: frames longer than one
byte whose payload ORs to zero bump the `zero_payload_packets` diagnostic
counter before the opcode is dispatched. -/
def precheck (s : State) (data : Nat → Nat) (length : Nat) : State :=
  if 1 < length ∧ payload_or data length = 0 then
    { s with zero_payload_packets := (s.zero_payload_packets + 1) % 4294967296 }
  else s

/-- The command decoder `process_command(data, length)`: a zero-length
frame is a no-op, otherwise the zero-payload pre-check runs and the opcode
is dispatched. -/
def process_command (s : State) (data : Nat → Nat) (length : Nat) : State × Bool :=
  if length = 0 then (s, false)
  else dispatch (precheck s data length) data length

/-- A configuration the firmware can actually be in: the defaults satisfy
it and `CMD_CONFIG` validates against exactly these bounds, keeping
`total_leds` equal to the product. -/
def validConfig (s : State) : Prop :=
  1 ≤ s.active_strips ∧ s.active_strips ≤ MAX_STRIPS ∧
    1 ≤ s.leds_per_strip ∧ s.leds_per_strip ≤ MAX_LEDS_PER_STRIP ∧
    s.total_leds = s.active_strips * s.leds_per_strip

instance (s : State) : Decidable (validConfig s) := by
  unfold validConfig; infer_instance

/-- Physical slot `p` lies in the currently addressable region: its strip
is active and its offset is below the configured per-strip length. -/
def addressable (active_strips leds_per_strip p : Nat) : Prop :=
  p / MAX_LEDS_PER_STRIP < active_strips ∧ p % MAX_LEDS_PER_STRIP < leds_per_strip

instance (a l p : Nat) : Decidable (addressable a l p) := by
  unfold addressable; infer_instance

/-- All-black pixel buffer. -/
def blankLeds : Nat → CRGB := fun _ => CRGB.black

/-- A small reachable state (configuration 2 strips of length 3) used to
instantiate the theorems at concrete inputs. -/
def testState : State where
  leds := blankLeds
  active_strips := 2
  leds_per_strip := 3
  total_leds := 6
  global_brightness := 50
  frames_rendered := 0
  zero_payload_packets := 0
  show_calls := 0
  debug_logging := false

theorem setLed_same (leds : Nat → CRGB) (i : Nat) (c : CRGB) : setLed leds i c i = c := by
  simp [setLed]

theorem setLed_other (leds : Nat → CRGB) (i : Nat) (c : CRGB) (p : Nat) (h : p ≠ i) :
    setLed leds i c p = leds p := by
  simp [setLed, h]

theorem writeRange_zero (leds : Nat → CRGB) (g : Nat → Nat) (v : Nat → CRGB) :
    writeRange leds 0 g v = leds := rfl

theorem writeRange_succ (leds : Nat → CRGB) (n : Nat) (g : Nat → Nat) (v : Nat → CRGB) :
    writeRange leds (n + 1) g v = setLed (writeRange leds n g v) (g n) (v n) := by
  unfold writeRange
  rw [List.range_succ, List.foldl_append]
  rfl

theorem writeRange_succ_front (leds : Nat → CRGB) (n : Nat) (g : Nat → Nat) (v : Nat → CRGB) :
    writeRange leds (n + 1) g v
      = writeRange (setLed leds (g 0) (v 0)) n (fun k => g (k + 1)) (fun k => v (k + 1)) := by
  unfold writeRange
  rw [List.range_succ_eq_map]
  simp [List.foldl_map]

theorem writeRange_miss (leds : Nat → CRGB) (n : Nat) (g : Nat → Nat) (v : Nat → CRGB)
    (p : Nat) (h : ∀ i, i < n → g i ≠ p) :
    writeRange leds n g v p = leds p := by
  induction n with
  | zero => rfl
  | succ m ih =>
      rw [writeRange_succ, setLed_other]
      · exact ih (fun i hi => h i (Nat.lt_succ_of_lt hi))
      · exact fun hp => h m (Nat.lt_succ_self m) hp.symm

theorem writeRange_hit (leds : Nat → CRGB) (n : Nat) (g : Nat → Nat) (v : Nat → CRGB)
    (p j : Nat) (hj : j < n) (hgj : g j = p)
    (hu : ∀ i, i < n → g i = p → i = j) :
    writeRange leds n g v p = v j := by
  induction n with
  | zero => omega
  | succ m ih =>
      rw [writeRange_succ]
      by_cases hm : p = g m
      · rw [setLed]
        simp only [if_pos hm]
        rw [hu m (Nat.lt_succ_self m) hm.symm]
      · rw [setLed_other _ _ _ _ hm]
        have hjm : j < m := by
          rcases Nat.lt_succ_iff_lt_or_eq.mp hj with h | h
          · exact h
          · exact absurd (h ▸ hgj).symm hm
        exact ih hjm (fun i hi hip => hu i (Nat.lt_succ_of_lt hi) hip)

theorem writeRange_congr (leds : Nat → CRGB) (n : Nat) (g g2 : Nat → Nat)
    (v v2 : Nat → CRGB) (h : ∀ i, i < n → g i = g2 i ∧ v i = v2 i) :
    writeRange leds n g v = writeRange leds n g2 v2 := by
  induction n with
  | zero => rfl
  | succ m ih =>
      rw [writeRange_succ, writeRange_succ,
        ih (fun i hi => h i (Nat.lt_succ_of_lt hi)),
        (h m (Nat.lt_succ_self m)).1, (h m (Nat.lt_succ_self m)).2]

theorem blackoutTail_succ (leds : Nat → CRGB) (s0 n o0 : Nat) :
    blackoutTail leds s0 (n + 1) o0
      = writeRange (blackoutTail leds s0 n o0) (MAX_LEDS_PER_STRIP - o0)
          (fun j => (s0 + n) * MAX_LEDS_PER_STRIP + (o0 + j)) (fun _ => CRGB.black) := by
  unfold blackoutTail
  rw [List.range_succ, List.foldl_append]
  rfl

theorem blackoutTail_apply (leds : Nat → CRGB) (s0 n o0 p : Nat) :
    blackoutTail leds s0 n o0 p
      = if s0 ≤ p / MAX_LEDS_PER_STRIP ∧ p / MAX_LEDS_PER_STRIP < s0 + n
            ∧ o0 ≤ p % MAX_LEDS_PER_STRIP
        then CRGB.black else leds p := by
  have hM : MAX_LEDS_PER_STRIP = 500 := rfl
  have hdm : 500 * (p / 500) + p % 500 = p := Nat.div_add_mod p 500
  have hmod : p % 500 < 500 := Nat.mod_lt p (by norm_num)
  simp only [hM]
  induction n with
  | zero =>
      rw [if_neg]
      · rfl
      · omega
  | succ m ih =>
      rw [blackoutTail_succ]
      simp only [hM]
      by_cases hc : p / 500 = s0 + m ∧ o0 ≤ p % 500
      · rw [writeRange_hit _ _ _ _ _ (p % 500 - o0) (by omega)
          (by omega) (fun i hi hip => by omega)]
        rw [if_pos (by omega)]
      · rw [writeRange_miss _ _ _ _ _ (fun i hi hip => by omega), ih]
        by_cases hold : s0 ≤ p / 500 ∧ p / 500 < s0 + m ∧ o0 ≤ p % 500
        · rw [if_pos (by omega), if_pos (by omega)]
        · rw [if_neg (by omega), if_neg (by omega)]

theorem blackoutTail_outside (leds : Nat → CRGB) (s0 n o0 p : Nat)
    (h : MAX_TOTAL_LEDS ≤ p) (hn : s0 + n ≤ MAX_STRIPS) :
    blackoutTail leds s0 n o0 p = leds p := by
  rw [blackoutTail_apply, if_neg]
  have hM : MAX_LEDS_PER_STRIP = 500 := rfl
  have hT : MAX_TOTAL_LEDS = 3500 := rfl
  have hS : MAX_STRIPS = 7 := rfl
  rw [hM]
  rw [hT] at h
  rw [hS] at hn
  have : 7 ≤ p / 500 := by
    have := Nat.div_add_mod p 500
    have := Nat.mod_lt p (show 0 < 500 by norm_num)
    omega
  omega

theorem div_lt_iff_lt_mul_cfg (L a l : Nat) (hl : 1 ≤ l) : L / l < a ↔ L < a * l := by
  constructor
  · intro h
    have hdm := Nat.div_add_mod L l
    have hml : L % l < l := Nat.mod_lt L (by omega)
    have h5 : l * (L / l + 1) ≤ l * a := Nat.mul_le_mul_left l (by omega)
    have h6 : l * (L / l + 1) = l * (L / l) + l := by ring
    have h7 : l * a = a * l := Nat.mul_comm l a
    omega
  · intro h
    by_contra hc
    have hc2 : a ≤ L / l := by omega
    have h3 : a * l ≤ L / l * l := Nat.mul_le_mul_right l hc2
    have h4 : L / l * l ≤ L := Nat.div_mul_le_self L l
    omega

theorem logical_to_physical_in_range (a l L : Nat) (h1 : 1 ≤ a) (h2 : a ≤ MAX_STRIPS)
    (h3 : 1 ≤ l) (h4 : l ≤ MAX_LEDS_PER_STRIP) (hL : L < a * l) :
    logical_to_physical a l L = L / l * MAX_LEDS_PER_STRIP + L % l := by
  have hS : MAX_STRIPS = 7 := rfl
  have hM : MAX_LEDS_PER_STRIP = 500 := rfl
  rw [hS] at h2
  rw [hM] at h4
  have hdiv : L / l < a := (div_lt_iff_lt_mul_cfg L a l h3).mpr hL
  have hmod : L % l < l := Nat.mod_lt L (by omega)
  unfold logical_to_physical
  simp only [hM]
  rw [if_neg (by omega), if_neg (by omega), Nat.mod_eq_of_lt (by omega)]

theorem logical_to_physical_clamp (a l L : Nat) (h1 : 1 ≤ a) (h2 : a ≤ MAX_STRIPS)
    (h3 : 1 ≤ l) (h4 : l ≤ MAX_LEDS_PER_STRIP) (hL : a ≤ L / l) :
    logical_to_physical a l L = (a - 1) * MAX_LEDS_PER_STRIP + (l - 1) := by
  have hS : MAX_STRIPS = 7 := rfl
  have hM : MAX_LEDS_PER_STRIP = 500 := rfl
  rw [hS] at h2
  rw [hM] at h4
  unfold logical_to_physical
  simp only [hM]
  rw [if_pos (by omega), if_pos (by omega)]
  have e1 : (a + 65535) % 65536 = a - 1 := by omega
  have e2 : (l + 65535) % 65536 = l - 1 := by omega
  rw [e1, e2, Nat.mod_eq_of_lt (by omega)]

theorem logical_to_physical_lt (a l L : Nat) (h1 : 1 ≤ a) (h2 : a ≤ MAX_STRIPS)
    (h3 : 1 ≤ l) (h4 : l ≤ MAX_LEDS_PER_STRIP) :
    logical_to_physical a l L < MAX_TOTAL_LEDS := by
  have hS : MAX_STRIPS = 7 := rfl
  have hM : MAX_LEDS_PER_STRIP = 500 := rfl
  have hT : MAX_TOTAL_LEDS = 3500 := rfl
  rw [hS] at h2
  rw [hM] at h4
  rw [hT]
  by_cases hc : a ≤ L / l
  · rw [logical_to_physical_clamp a l L h1 (by rw [hS]; omega) h3 (by rw [hM]; omega) hc, hM]
    omega
  · have hL : L < a * l := (div_lt_iff_lt_mul_cfg L a l h3).mp (by omega)
    rw [logical_to_physical_in_range a l L h1 (by rw [hS]; omega) h3 (by rw [hM]; omega) hL, hM]
    have hdiv : L / l < a := by omega
    have hmod : L % l < l := Nat.mod_lt L (by omega)
    omega

theorem logical_to_physical_div_mod (a l L : Nat) (h1 : 1 ≤ a) (h2 : a ≤ MAX_STRIPS)
    (h3 : 1 ≤ l) (h4 : l ≤ MAX_LEDS_PER_STRIP) (hL : L < a * l) :
    logical_to_physical a l L / MAX_LEDS_PER_STRIP = L / l
      ∧ logical_to_physical a l L % MAX_LEDS_PER_STRIP = L % l := by
  have hM : MAX_LEDS_PER_STRIP = 500 := rfl
  rw [logical_to_physical_in_range a l L h1 h2 h3 h4 hL, hM]
  rw [hM] at h4
  have hmod : L % l < l := Nat.mod_lt L (by omega)
  constructor
  · omega
  · omega

theorem logical_to_physical_addressable (a l L : Nat) (h1 : 1 ≤ a) (h2 : a ≤ MAX_STRIPS)
    (h3 : 1 ≤ l) (h4 : l ≤ MAX_LEDS_PER_STRIP) (hL : L < a * l) :
    addressable a l (logical_to_physical a l L) := by
  obtain ⟨e1, e2⟩ := logical_to_physical_div_mod a l L h1 h2 h3 h4 hL
  have hM : MAX_LEDS_PER_STRIP = 500 := rfl
  rw [hM] at h4
  have hdiv : L / l < a := (div_lt_iff_lt_mul_cfg L a l h3).mpr hL
  have hmod : L % l < l := Nat.mod_lt L (by omega)
  exact ⟨by rw [e1]; omega, by rw [e2]; omega⟩

theorem logical_to_physical_injOn (a l i j : Nat) (h1 : 1 ≤ a) (h2 : a ≤ MAX_STRIPS)
    (h3 : 1 ≤ l) (h4 : l ≤ MAX_LEDS_PER_STRIP) (hi : i < a * l) (hj : j < a * l)
    (he : logical_to_physical a l i = logical_to_physical a l j) : i = j := by
  have hM : MAX_LEDS_PER_STRIP = 500 := rfl
  rw [logical_to_physical_in_range a l i h1 h2 h3 h4 hi,
    logical_to_physical_in_range a l j h1 h2 h3 h4 hj, hM] at he
  rw [hM] at h4
  have hri : i % l < l := Nat.mod_lt i (by omega)
  have hrj : j % l < l := Nat.mod_lt j (by omega)
  have hq : i / l = j / l := by omega
  have hr : i % l = j % l := by omega
  calc i = l * (i / l) + i % l := (Nat.div_add_mod i l).symm
    _ = l * (j / l) + j % l := by rw [hq, hr]
    _ = j := Nat.div_add_mod j l

/-- Claim C3: for a valid configuration the address translator maps a
logical index L below `total_leds = active_strips * leds_per_strip` to
`(L / leds_per_strip) * MAX_LEDS_PER_STRIP + L % leds_per_strip`; any L
whose strip index reaches `active_strips` (which forces
`L ≥ total_leds`) is clamped to the last slot of the last active strip,
`(active_strips - 1) * MAX_LEDS_PER_STRIP + (leds_per_strip - 1)`; and the
result is always inside the physical buffer. -/
theorem claim_C3_translator (a l : Nat) (h1 : 1 ≤ a) (h2 : a ≤ MAX_STRIPS)
    (h3 : 1 ≤ l) (h4 : l ≤ MAX_LEDS_PER_STRIP) :
    (∀ L, L < a * l →
        logical_to_physical a l L = L / l * MAX_LEDS_PER_STRIP + L % l)
      ∧ (∀ L, a ≤ L / l →
          logical_to_physical a l L = (a - 1) * MAX_LEDS_PER_STRIP + (l - 1))
      ∧ (∀ L, a ≤ L / l → a * l ≤ L)
      ∧ (∀ L, logical_to_physical a l L < MAX_TOTAL_LEDS) := by
  refine ⟨fun L hL => logical_to_physical_in_range a l L h1 h2 h3 h4 hL,
    fun L hL => logical_to_physical_clamp a l L h1 h2 h3 h4 hL,
    fun L hL => ?_,
    fun L => logical_to_physical_lt a l L h1 h2 h3 h4⟩
  by_contra hc
  exact absurd ((div_lt_iff_lt_mul_cfg L a l h3).mpr (by omega)) (by omega)

/-- Witness for claim C3 at the configuration 2 strips of length 3:
logical index 4 maps to slot 501, logical index 7 clamps to slot 502. -/
theorem claim_C3_translator_witness :
    1 ≤ 2 ∧ 2 ≤ MAX_STRIPS ∧ 1 ≤ 3 ∧ 3 ≤ MAX_LEDS_PER_STRIP
      ∧ logical_to_physical 2 3 4 = 4 / 3 * MAX_LEDS_PER_STRIP + 4 % 3
      ∧ logical_to_physical 2 3 7 = (2 - 1) * MAX_LEDS_PER_STRIP + (3 - 1)
      ∧ logical_to_physical 2 3 7 < MAX_TOTAL_LEDS :=
  ⟨by decide, by decide, by decide, by decide,
    (claim_C3_translator 2 3 (by decide) (by decide) (by decide) (by decide)).1 4 (by decide),
    (claim_C3_translator 2 3 (by decide) (by decide) (by decide) (by decide)).2.1 7 (by decide),
    (claim_C3_translator 2 3 (by decide) (by decide) (by decide) (by decide)).2.2.2 7⟩

/-- Claim C4: for any fixed valid configuration the address translator is
injective on the logical range `[0, active_strips * leds_per_strip)`. -/
theorem claim_C4_translator_injective (a l : Nat) (h1 : 1 ≤ a) (h2 : a ≤ MAX_STRIPS)
    (h3 : 1 ≤ l) (h4 : l ≤ MAX_LEDS_PER_STRIP) :
    ∀ i j, i < a * l → j < a * l → i ≠ j →
      logical_to_physical a l i ≠ logical_to_physical a l j := by
  intro i j hi hj hne he
  exact hne (logical_to_physical_injOn a l i j h1 h2 h3 h4 hi hj he)

/-- Witness for claim C4 at the configuration 2 strips of length 3, at the
distinct logical indices 2 and 3. -/
theorem claim_C4_translator_injective_witness :
    1 ≤ 2 ∧ 2 ≤ MAX_STRIPS ∧ 1 ≤ 3 ∧ 3 ≤ MAX_LEDS_PER_STRIP
      ∧ logical_to_physical 2 3 2 ≠ logical_to_physical 2 3 3 :=
  ⟨by decide, by decide, by decide, by decide,
    claim_C4_translator_injective 2 3 (by decide) (by decide) (by decide) (by decide)
      2 3 (by decide) (by decide) (by decide)⟩

theorem process_command_pos (s : State) (data : Nat → Nat) (length : Nat)
    (h : length ≠ 0) :
    process_command s data length = dispatch (precheck s data length) data length := by
  unfold process_command
  rw [if_neg h]

theorem precheck_leds (s : State) (data : Nat → Nat) (length : Nat) :
    (precheck s data length).leds = s.leds := by
  unfold precheck; split <;> rfl

theorem precheck_active_strips (s : State) (data : Nat → Nat) (length : Nat) :
    (precheck s data length).active_strips = s.active_strips := by
  unfold precheck; split <;> rfl

theorem precheck_leds_per_strip (s : State) (data : Nat → Nat) (length : Nat) :
    (precheck s data length).leds_per_strip = s.leds_per_strip := by
  unfold precheck; split <;> rfl

theorem precheck_total_leds (s : State) (data : Nat → Nat) (length : Nat) :
    (precheck s data length).total_leds = s.total_leds := by
  unfold precheck; split <;> rfl

theorem precheck_global_brightness (s : State) (data : Nat → Nat) (length : Nat) :
    (precheck s data length).global_brightness = s.global_brightness := by
  unfold precheck; split <;> rfl

theorem precheck_frames_rendered (s : State) (data : Nat → Nat) (length : Nat) :
    (precheck s data length).frames_rendered = s.frames_rendered := by
  unfold precheck; split <;> rfl

theorem precheck_show_calls (s : State) (data : Nat → Nat) (length : Nat) :
    (precheck s data length).show_calls = s.show_calls := by
  unfold precheck; split <;> rfl

theorem precheck_debug_logging (s : State) (data : Nat → Nat) (length : Nat) :
    (precheck s data length).debug_logging = s.debug_logging := by
  unfold precheck; split <;> rfl

theorem precheck_zero_payload (s : State) (data : Nat → Nat) (length : Nat) :
    (precheck s data length).zero_payload_packets
      = if 1 < length ∧ payload_or data length = 0
        then (s.zero_payload_packets + 1) % 4294967296
        else s.zero_payload_packets := by
  unfold precheck; split <;> simp_all

theorem dispatch_ping (s : State) (data : Nat → Nat) (length : Nat)
    (h : data 0 % 256 = CMD_PING) :
    dispatch s data length = (s, false) := by
  unfold dispatch; rw [h]; rfl

theorem dispatch_set_pixel (s : State) (data : Nat → Nat) (length : Nat)
    (h : data 0 % 256 = CMD_SET_PIXEL) :
    dispatch s data length =
      if length < 6 then (s, true)
      else if (data 1 % 256) * 256 + data 2 % 256 < s.total_leds then
        ({ s with
            leds := setLed s.leds
              (logical_to_physical s.active_strips s.leds_per_strip
                ((data 1 % 256) * 256 + data 2 % 256))
              ⟨data 3 % 256, data 4 % 256, data 5 % 256⟩ }, false)
      else (s, false) := by
  unfold dispatch; rw [h]; rfl

theorem dispatch_set_brightness (s : State) (data : Nat → Nat) (length : Nat)
    (h : data 0 % 256 = CMD_SET_BRIGHTNESS) :
    dispatch s data length =
      if length < 2 then (s, true)
      else ({ s with global_brightness := data 1 % 256 }, false) := by
  unfold dispatch; rw [h]; rfl

theorem dispatch_show_cmd (s : State) (data : Nat → Nat) (length : Nat)
    (h : data 0 % 256 = CMD_SHOW) :
    dispatch s data length =
      ({ s with
          frames_rendered := (s.frames_rendered + 1) % 4294967296,
          show_calls := s.show_calls + 1 }, false) := by
  unfold dispatch; rw [h]; rfl

theorem dispatch_clear (s : State) (data : Nat → Nat) (length : Nat)
    (h : data 0 % 256 = CMD_CLEAR) :
    dispatch s data length =
      ({ s with
          leds := blackoutTail (blackoutTail s.leds 0 s.active_strips 0)
            s.active_strips (MAX_STRIPS - s.active_strips) 0,
          frames_rendered := (s.frames_rendered + 1) % 4294967296,
          show_calls := s.show_calls + 1 }, false) := by
  unfold dispatch; rw [h]; rfl

theorem dispatch_set_range (s : State) (data : Nat → Nat) (length : Nat)
    (h : data 0 % 256 = CMD_SET_RANGE) :
    dispatch s data length =
      if length < 4 then (s, true)
      else if s.total_leds ≤ (data 1 % 256) * 256 + data 2 % 256 then (s, false)
      else if length < 4 + (data 3 % 256) * 3 then (s, true)
      else
        ({ s with
            leds := setRangeLoop s.active_strips s.leds_per_strip s.total_leds
              data ((data 1 % 256) * 256 + data 2 % 256) 0
              (if s.total_leds < (data 1 % 256) * 256 + data 2 % 256 + data 3 % 256
               then (s.total_leds - ((data 1 % 256) * 256 + data 2 % 256)) % 256
               else data 3 % 256)
              s.leds }, false) := by
  unfold dispatch; rw [h]; rfl

theorem dispatch_set_all (s : State) (data : Nat → Nat) (length : Nat)
    (h : data 0 % 256 = CMD_SET_ALL) :
    dispatch s data length =
      if length < 1 + s.total_leds * 3 then (s, true)
      else
        ({ s with
            leds := blackoutTail
              (blackoutTail
                (writeRange s.leds s.total_leds
                  (fun logical => logical_to_physical s.active_strips s.leds_per_strip logical)
                  (fun logical =>
                    ⟨data (1 + logical * 3) % 256, data (1 + logical * 3 + 1) % 256,
                      data (1 + logical * 3 + 2) % 256⟩))
                0 s.active_strips s.leds_per_strip)
              s.active_strips (MAX_STRIPS - s.active_strips) 0,
            frames_rendered := (s.frames_rendered + 1) % 4294967296,
            show_calls := s.show_calls + 1 }, false) := by
  unfold dispatch; rw [h]; rfl

theorem dispatch_config (s : State) (data : Nat → Nat) (length : Nat)
    (h : data 0 % 256 = CMD_CONFIG) :
    dispatch s data length =
      if length < 4 then (s, true)
      else if data 1 % 256 = 0 ∨ MAX_STRIPS < data 1 % 256 then (s, true)
      else if (data 2 % 256) * 256 + data 3 % 256 = 0
          ∨ MAX_LEDS_PER_STRIP < (data 2 % 256) * 256 + data 3 % 256 then (s, true)
      else
        (if 5 ≤ length then
          { s with
              active_strips := data 1 % 256,
              leds_per_strip := (data 2 % 256) * 256 + data 3 % 256,
              total_leds := (data 1 % 256) * ((data 2 % 256) * 256 + data 3 % 256) % 65536,
              leds := blackoutTail
                (blackoutTail s.leds 0 (data 1 % 256) ((data 2 % 256) * 256 + data 3 % 256))
                (data 1 % 256) (MAX_STRIPS - data 1 % 256) 0,
              show_calls := s.show_calls + 1,
              debug_logging := data 4 % 256 != 0 }
        else
          { s with
              active_strips := data 1 % 256,
              leds_per_strip := (data 2 % 256) * 256 + data 3 % 256,
              total_leds := (data 1 % 256) * ((data 2 % 256) * 256 + data 3 % 256) % 65536,
              leds := blackoutTail
                (blackoutTail s.leds 0 (data 1 % 256) ((data 2 % 256) * 256 + data 3 % 256))
                (data 1 % 256) (MAX_STRIPS - data 1 % 256) 0,
              show_calls := s.show_calls + 1 }, false) := by
  unfold dispatch; rw [h]; rfl

theorem dispatch_default (s : State) (data : Nat → Nat) (length : Nat)
    (h1 : data 0 % 256 ≠ CMD_PING) (h2 : data 0 % 256 ≠ CMD_SET_PIXEL)
    (h3 : data 0 % 256 ≠ CMD_SET_BRIGHTNESS) (h4 : data 0 % 256 ≠ CMD_SHOW)
    (h5 : data 0 % 256 ≠ CMD_CLEAR) (h6 : data 0 % 256 ≠ CMD_SET_RANGE)
    (h7 : data 0 % 256 ≠ CMD_SET_ALL) (h8 : data 0 % 256 ≠ CMD_CONFIG) :
    dispatch s data length = (s, false) := by
  unfold dispatch
  rw [if_neg h1, if_neg h2, if_neg h3, if_neg h4, if_neg h5, if_neg h6, if_neg h7,
    if_neg h8]

/-- Erase the zero-payload diagnostic counter, to compare the rest of the
state. -/
def forgetZeroPayload (s : State) : State :=
  { s with zero_payload_packets := 0 }

theorem dispatch_zero_payload (s : State) (data : Nat → Nat) (length : Nat) :
    (dispatch s data length).1.zero_payload_packets = s.zero_payload_packets := by
  by_cases h1 : data 0 % 256 = CMD_PING
  · rw [dispatch_ping s data length h1]
  by_cases h2 : data 0 % 256 = CMD_SET_PIXEL
  · rw [dispatch_set_pixel s data length h2]
    repeat' split
    all_goals rfl
  by_cases h3 : data 0 % 256 = CMD_SET_BRIGHTNESS
  · rw [dispatch_set_brightness s data length h3]
    repeat' split
    all_goals rfl
  by_cases h4 : data 0 % 256 = CMD_SHOW
  · rw [dispatch_show_cmd s data length h4]
  by_cases h5 : data 0 % 256 = CMD_CLEAR
  · rw [dispatch_clear s data length h5]
  by_cases h6 : data 0 % 256 = CMD_SET_RANGE
  · rw [dispatch_set_range s data length h6]
    repeat' split
    all_goals rfl
  by_cases h7 : data 0 % 256 = CMD_SET_ALL
  · rw [dispatch_set_all s data length h7]
    repeat' split
    all_goals rfl
  by_cases h8 : data 0 % 256 = CMD_CONFIG
  · rw [dispatch_config s data length h8]
    repeat' split
    all_goals rfl
  rw [dispatch_default s data length h1 h2 h3 h4 h5 h6 h7 h8]

theorem forget_precheck (s : State) (data : Nat → Nat) (length : Nat) :
    forgetZeroPayload (precheck s data length) = forgetZeroPayload s := by
  unfold precheck; split <;> rfl

theorem forget_fields (s t : State) (h : forgetZeroPayload s = forgetZeroPayload t) :
    s.leds = t.leds ∧ s.active_strips = t.active_strips
      ∧ s.leds_per_strip = t.leds_per_strip ∧ s.total_leds = t.total_leds
      ∧ s.global_brightness = t.global_brightness
      ∧ s.frames_rendered = t.frames_rendered ∧ s.show_calls = t.show_calls
      ∧ s.debug_logging = t.debug_logging := by
  have hl := congrArg State.leds h
  have ha := congrArg State.active_strips h
  have hlp := congrArg State.leds_per_strip h
  have ht := congrArg State.total_leds h
  have hb := congrArg State.global_brightness h
  have hf := congrArg State.frames_rendered h
  have hsc := congrArg State.show_calls h
  have hd := congrArg State.debug_logging h
  simp only [forgetZeroPayload] at hl ha hlp ht hb hf hsc hd
  exact ⟨hl, ha, hlp, ht, hb, hf, hsc, hd⟩

theorem dispatch_zp_update (t : State) (z : Nat) (data : Nat → Nat) (length : Nat) :
    dispatch { t with zero_payload_packets := z } data length
      = ({ (dispatch t data length).1 with zero_payload_packets := z },
          (dispatch t data length).2) := by
  by_cases h1 : data 0 % 256 = CMD_PING
  · rw [dispatch_ping _ data length h1, dispatch_ping t data length h1]
  by_cases h2 : data 0 % 256 = CMD_SET_PIXEL
  · rw [dispatch_set_pixel _ data length h2, dispatch_set_pixel t data length h2]
    dsimp only
    repeat' split
    all_goals rfl
  by_cases h3 : data 0 % 256 = CMD_SET_BRIGHTNESS
  · rw [dispatch_set_brightness _ data length h3, dispatch_set_brightness t data length h3]
    dsimp only
    repeat' split
    all_goals rfl
  by_cases h4 : data 0 % 256 = CMD_SHOW
  · rw [dispatch_show_cmd _ data length h4, dispatch_show_cmd t data length h4]
  by_cases h5 : data 0 % 256 = CMD_CLEAR
  · rw [dispatch_clear _ data length h5, dispatch_clear t data length h5]
  by_cases h6 : data 0 % 256 = CMD_SET_RANGE
  · rw [dispatch_set_range _ data length h6, dispatch_set_range t data length h6]
    dsimp only
    repeat' split
    all_goals rfl
  by_cases h7 : data 0 % 256 = CMD_SET_ALL
  · rw [dispatch_set_all _ data length h7, dispatch_set_all t data length h7]
    dsimp only
    repeat' split
    all_goals rfl
  by_cases h8 : data 0 % 256 = CMD_CONFIG
  · rw [dispatch_config _ data length h8, dispatch_config t data length h8]
    dsimp only
    repeat' split
    all_goals rfl
  rw [dispatch_default _ data length h1 h2 h3 h4 h5 h6 h7 h8,
    dispatch_default t data length h1 h2 h3 h4 h5 h6 h7 h8]

/-- Concrete reconfigure frame [0x07, 3, 0, 2, 1]: 3 strips of length 2,
debug byte 1. -/
def dCfg : Nat → Nat := fun i =>
  if i = 0 then 7 else if i = 1 then 3 else if i = 3 then 2 else if i = 4 then 1 else 0

/-- Concrete ping frame with an all-zero payload: [0xFF, 0, 0]. -/
def dZero : Nat → Nat := fun i => if i = 0 then 255 else 0

/-- Concrete set-pixel frame [0x01, 0, 1, 9, 8, 7]: pixel 1 gets RGB
(9, 8, 7). -/
def dPix : Nat → Nat := fun i =>
  if i = 0 then 1 else if i = 2 then 1 else if i = 3 then 9
  else if i = 4 then 8 else if i = 5 then 7 else 0

/-- Claim C5: a reconfigure frame shorter than 4 bytes, or with a strip
count outside [1, MAX_STRIPS], or a per-strip length outside
[1, MAX_LEDS_PER_STRIP], is rejected leaving `active_strips`,
`leds_per_strip`, `total_leds`, the pixel buffer and the debug-logging
flag unchanged; a validated reconfigure applies the new pair (with
`total_leds` their product) and, when the frame has a 5th byte, sets the
verbose-diagnostics flag from it. -/
theorem claim_C5_reconfigure (s : State) (data : Nat → Nat) (length : Nat)
    (hlen : 1 ≤ length) (hcmd : data 0 % 256 = CMD_CONFIG) :
    ((length < 4 ∨ data 1 % 256 = 0 ∨ MAX_STRIPS < data 1 % 256
        ∨ (data 2 % 256) * 256 + data 3 % 256 = 0
        ∨ MAX_LEDS_PER_STRIP < (data 2 % 256) * 256 + data 3 % 256) →
      ((process_command s data length).2 = true
        ∧ (process_command s data length).1.active_strips = s.active_strips
        ∧ (process_command s data length).1.leds_per_strip = s.leds_per_strip
        ∧ (process_command s data length).1.total_leds = s.total_leds
        ∧ (process_command s data length).1.leds = s.leds
        ∧ (process_command s data length).1.debug_logging = s.debug_logging))
    ∧ (4 ≤ length → 1 ≤ data 1 % 256 → data 1 % 256 ≤ MAX_STRIPS
        → 1 ≤ (data 2 % 256) * 256 + data 3 % 256
        → (data 2 % 256) * 256 + data 3 % 256 ≤ MAX_LEDS_PER_STRIP →
      ((process_command s data length).2 = false
        ∧ (process_command s data length).1.active_strips = data 1 % 256
        ∧ (process_command s data length).1.leds_per_strip
            = (data 2 % 256) * 256 + data 3 % 256
        ∧ (process_command s data length).1.total_leds
            = (data 1 % 256) * ((data 2 % 256) * 256 + data 3 % 256)
        ∧ (5 ≤ length →
            (process_command s data length).1.debug_logging = (data 4 % 256 != 0)))) := by
  have hS : MAX_STRIPS = 7 := rfl
  have hM : MAX_LEDS_PER_STRIP = 500 := rfl
  rw [process_command_pos s data length (by omega), dispatch_config _ data length hcmd]
  constructor
  · intro h
    by_cases hl4 : length < 4
    · rw [if_pos hl4]
      exact ⟨rfl, precheck_active_strips s data length, precheck_leds_per_strip s data length,
        precheck_total_leds s data length, precheck_leds s data length,
        precheck_debug_logging s data length⟩
    · rw [if_neg hl4]
      by_cases hns : data 1 % 256 = 0 ∨ MAX_STRIPS < data 1 % 256
      · rw [if_pos hns]
        exact ⟨rfl, precheck_active_strips s data length, precheck_leds_per_strip s data length,
          precheck_total_leds s data length, precheck_leds s data length,
          precheck_debug_logging s data length⟩
      · rw [hS] at h hns
        rw [hM] at h
        rw [if_neg (by rw [hS]; omega),
          if_pos (show (data 2 % 256) * 256 + data 3 % 256 = 0
            ∨ MAX_LEDS_PER_STRIP < (data 2 % 256) * 256 + data 3 % 256 by rw [hM]; omega)]
        exact ⟨rfl, precheck_active_strips s data length, precheck_leds_per_strip s data length,
          precheck_total_leds s data length, precheck_leds s data length,
          precheck_debug_logging s data length⟩
  · intro h4 hns1 hns2 hnl1 hnl2
    rw [hS] at hns2
    rw [hM] at hnl2
    rw [if_neg (by omega), if_neg (by rw [hS]; omega), if_neg (by rw [hM]; omega)]
    have hmod : (data 1 % 256) * ((data 2 % 256) * 256 + data 3 % 256) % 65536
        = (data 1 % 256) * ((data 2 % 256) * 256 + data 3 % 256) := by
      apply Nat.mod_eq_of_lt
      have := Nat.mul_le_mul hns2 hnl2
      omega
    by_cases h5 : 5 ≤ length
    · rw [if_pos h5]
      exact ⟨rfl, rfl, rfl, hmod, fun _ => rfl⟩
    · rw [if_neg h5]
      exact ⟨rfl, rfl, rfl, hmod, fun h => absurd h h5⟩

/-- Witness for claim C5: reconfiguring the test state with the frame
[0x07, 3, 0, 2, 1] succeeds, applying 3 strips of length 2 and enabling
debug logging. -/
theorem claim_C5_reconfigure_witness :
    (1 ≤ 5 ∧ dCfg 0 % 256 = CMD_CONFIG ∧ 4 ≤ 5 ∧ 1 ≤ dCfg 1 % 256
        ∧ dCfg 1 % 256 ≤ MAX_STRIPS ∧ 1 ≤ (dCfg 2 % 256) * 256 + dCfg 3 % 256
        ∧ (dCfg 2 % 256) * 256 + dCfg 3 % 256 ≤ MAX_LEDS_PER_STRIP)
      ∧ ((process_command testState dCfg 5).2 = false
        ∧ (process_command testState dCfg 5).1.active_strips = dCfg 1 % 256
        ∧ (process_command testState dCfg 5).1.leds_per_strip
            = (dCfg 2 % 256) * 256 + dCfg 3 % 256
        ∧ (process_command testState dCfg 5).1.total_leds
            = (dCfg 1 % 256) * ((dCfg 2 % 256) * 256 + dCfg 3 % 256)
        ∧ (process_command testState dCfg 5).1.debug_logging = (dCfg 4 % 256 != 0)) := by
  have h := (claim_C5_reconfigure testState dCfg 5 (by decide) (by decide)).2
    (by decide) (by decide) (by decide) (by decide) (by decide)
  exact ⟨⟨by decide, by decide, by decide, by decide, by decide, by decide, by decide⟩,
    h.1, h.2.1, h.2.2.1, h.2.2.2.1, h.2.2.2.2 (by decide)⟩

/-- Claim C8: for a frame longer than one byte the decoder forms the
bitwise OR of the payload bytes (positions 1 to length - 1); the
zero-payload anomaly counter is bumped exactly when that OR is zero, and
apart from that counter the command is dispatched to its opcode behavior
exactly as without the pre-check. -/
theorem claim_C8_zero_payload (s : State) (data : Nat → Nat) (length : Nat)
    (h : 1 < length) :
    ((process_command s data length).1.zero_payload_packets
        = (if payload_or data length = 0
            then (s.zero_payload_packets + 1) % 4294967296
            else s.zero_payload_packets))
      ∧ forgetZeroPayload (process_command s data length).1
          = forgetZeroPayload (dispatch s data length).1
      ∧ (process_command s data length).2 = (dispatch s data length).2 := by
  rw [process_command_pos s data length (by omega)]
  by_cases hc : payload_or data length = 0
  · have hp : precheck s data length
        = { s with zero_payload_packets := (s.zero_payload_packets + 1) % 4294967296 } := by
      unfold precheck
      rw [if_pos ⟨h, hc⟩]
    rw [hp, dispatch_zp_update, if_pos hc]
    exact ⟨rfl, rfl, rfl⟩
  · have hp : precheck s data length = s := by
      unfold precheck
      rw [if_neg (fun hx => hc hx.2)]
    rw [hp, if_neg hc]
    exact ⟨dispatch_zero_payload s data length, rfl, rfl⟩

/-- Witness for claim C8: the all-zero-payload ping frame [0xFF, 0, 0]
bumps the anomaly counter of the test state by one. -/
theorem claim_C8_zero_payload_witness :
    1 < 3
      ∧ (process_command testState dZero 3).1.zero_payload_packets
          = (if payload_or dZero 3 = 0
              then (testState.zero_payload_packets + 1) % 4294967296
              else testState.zero_payload_packets) :=
  ⟨by decide, (claim_C8_zero_payload testState dZero 3 (by decide)).1⟩

/-- Claim C9: a set-pixel frame shorter than 6 bytes is rejected with no
mutation; with length at least 6 and a big-endian index at or beyond
`total_leds` it is a silent no-op (not flagged as an error) leaving the
buffer unchanged; otherwise exactly the addressed logical pixel receives
the RGB triple of bytes 3 to 5 and every other pixel is unchanged. -/
theorem claim_C9_set_pixel (s : State) (data : Nat → Nat) (length : Nat)
    (hv : validConfig s) (hlen : 1 ≤ length) (hcmd : data 0 % 256 = CMD_SET_PIXEL) :
    (length < 6 →
      ((process_command s data length).2 = true
        ∧ (process_command s data length).1.leds = s.leds))
    ∧ (6 ≤ length → s.total_leds ≤ (data 1 % 256) * 256 + data 2 % 256 →
      ((process_command s data length).2 = false
        ∧ (process_command s data length).1.leds = s.leds))
    ∧ (6 ≤ length → (data 1 % 256) * 256 + data 2 % 256 < s.total_leds →
      ((process_command s data length).2 = false
        ∧ (process_command s data length).1.leds
            (logical_to_physical s.active_strips s.leds_per_strip
              ((data 1 % 256) * 256 + data 2 % 256))
          = ⟨data 3 % 256, data 4 % 256, data 5 % 256⟩
        ∧ (∀ p, p ≠ logical_to_physical s.active_strips s.leds_per_strip
              ((data 1 % 256) * 256 + data 2 % 256) →
            (process_command s data length).1.leds p = s.leds p)
        ∧ (∀ j, j < s.total_leds → j ≠ (data 1 % 256) * 256 + data 2 % 256 →
            (process_command s data length).1.leds
                (logical_to_physical s.active_strips s.leds_per_strip j)
              = s.leds (logical_to_physical s.active_strips s.leds_per_strip j)))) := by
  obtain ⟨ha1, ha2, hl1, hl2, htot⟩ := hv
  rw [process_command_pos s data length (by omega), dispatch_set_pixel _ data length hcmd]
  simp only [precheck_total_leds]
  refine ⟨fun h6 => ?_, fun h6 hge => ?_, fun h6 hlt => ?_⟩
  · rw [if_pos h6]
    exact ⟨rfl, precheck_leds s data length⟩
  · rw [if_neg (by omega), if_neg (by omega)]
    exact ⟨rfl, precheck_leds s data length⟩
  · rw [if_neg (by omega), if_pos hlt]
    refine ⟨rfl, ?_, ?_, ?_⟩
    · dsimp only
      rw [precheck_leds, precheck_active_strips, precheck_leds_per_strip, setLed_same]
    · intro p hp
      dsimp only
      rw [precheck_leds, precheck_active_strips, precheck_leds_per_strip,
        setLed_other _ _ _ _ hp]
    · intro j hj hne
      dsimp only
      rw [precheck_leds, precheck_active_strips, precheck_leds_per_strip]
      apply setLed_other
      intro he
      rw [htot] at hj hlt
      exact hne (logical_to_physical_injOn s.active_strips s.leds_per_strip j
        ((data 1 % 256) * 256 + data 2 % 256) ha1 ha2 hl1 hl2 hj hlt he)

/-- Witness for claim C9: in the test state the frame [1, 0, 1, 9, 8, 7]
writes RGB (9, 8, 7) to the slot of logical pixel 1. -/
theorem claim_C9_set_pixel_witness :
    (validConfig testState ∧ 1 ≤ 6 ∧ dPix 0 % 256 = CMD_SET_PIXEL ∧ 6 ≤ 6
        ∧ (dPix 1 % 256) * 256 + dPix 2 % 256 < testState.total_leds)
      ∧ ((process_command testState dPix 6).2 = false
        ∧ (process_command testState dPix 6).1.leds
            (logical_to_physical testState.active_strips testState.leds_per_strip
              ((dPix 1 % 256) * 256 + dPix 2 % 256))
          = ⟨dPix 3 % 256, dPix 4 % 256, dPix 5 % 256⟩) := by
  have h := (claim_C9_set_pixel testState dPix 6 (by decide) (by decide) (by decide)).2.2
    (by decide) (by decide)
  exact ⟨⟨by decide, by decide, by decide, by decide, by decide⟩, h.1, h.2.1⟩

@[simp] theorem CMD_SET_PIXEL_eq : CMD_SET_PIXEL = 1 := rfl
@[simp] theorem CMD_SET_BRIGHTNESS_eq : CMD_SET_BRIGHTNESS = 2 := rfl
@[simp] theorem CMD_SHOW_eq : CMD_SHOW = 3 := rfl
@[simp] theorem CMD_CLEAR_eq : CMD_CLEAR = 4 := rfl
@[simp] theorem CMD_SET_RANGE_eq : CMD_SET_RANGE = 5 := rfl
@[simp] theorem CMD_SET_ALL_eq : CMD_SET_ALL = 6 := rfl
@[simp] theorem CMD_CONFIG_eq : CMD_CONFIG = 7 := rfl
@[simp] theorem CMD_PING_eq : CMD_PING = 255 := rfl
@[simp] theorem MAX_STRIPS_eq : MAX_STRIPS = 7 := rfl
@[simp] theorem MAX_LEDS_PER_STRIP_eq : MAX_LEDS_PER_STRIP = 500 := rfl

/-- The commands that call the output driver and bump `frames_rendered`:
render, clear, and a set-all whose frame meets its expected size. -/
def rendersAndCounts (s : State) (data : Nat → Nat) (length : Nat) : Prop :=
  data 0 % 256 = CMD_SHOW ∨ data 0 % 256 = CMD_CLEAR
    ∨ (data 0 % 256 = CMD_SET_ALL ∧ 1 + s.total_leds * 3 ≤ length)

/-- A reconfigure frame that passes all its validation checks. -/
def validReconfig (data : Nat → Nat) (length : Nat) : Prop :=
  data 0 % 256 = CMD_CONFIG ∧ 4 ≤ length ∧ 1 ≤ data 1 % 256
    ∧ data 1 % 256 ≤ MAX_STRIPS ∧ 1 ≤ (data 2 % 256) * 256 + data 3 % 256
    ∧ (data 2 % 256) * 256 + data 3 % 256 ≤ MAX_LEDS_PER_STRIP

instance (s : State) (data : Nat → Nat) (length : Nat) :
    Decidable (rendersAndCounts s data length) := by
  unfold rendersAndCounts; infer_instance

instance (data : Nat → Nat) (length : Nat) : Decidable (validReconfig data length) := by
  unfold validReconfig; infer_instance

theorem dispatch_render_counters (s : State) (data : Nat → Nat) (length : Nat) :
    (dispatch s data length).1.frames_rendered
        = (if rendersAndCounts s data length
           then (s.frames_rendered + 1) % 4294967296 else s.frames_rendered)
      ∧ (dispatch s data length).1.show_calls
        = (if rendersAndCounts s data length ∨ validReconfig data length
           then s.show_calls + 1 else s.show_calls) := by
  by_cases h1 : data 0 % 256 = CMD_PING
  · rw [dispatch_ping s data length h1]
    constructor <;> simp [rendersAndCounts, validReconfig, h1]
  by_cases h2 : data 0 % 256 = CMD_SET_PIXEL
  · rw [dispatch_set_pixel s data length h2]
    constructor <;>
    · simp [rendersAndCounts, validReconfig, h2]
      repeat' split
      all_goals rfl
  by_cases h3 : data 0 % 256 = CMD_SET_BRIGHTNESS
  · rw [dispatch_set_brightness s data length h3]
    constructor <;>
    · simp [rendersAndCounts, validReconfig, h3]
      repeat' split
      all_goals rfl
  by_cases h4 : data 0 % 256 = CMD_SHOW
  · rw [dispatch_show_cmd s data length h4]
    exact ⟨by rw [if_pos (show rendersAndCounts s data length from Or.inl h4)],
      by rw [if_pos (Or.inl (show rendersAndCounts s data length from Or.inl h4))]⟩
  by_cases h5 : data 0 % 256 = CMD_CLEAR
  · rw [dispatch_clear s data length h5]
    exact ⟨by rw [if_pos (show rendersAndCounts s data length from Or.inr (Or.inl h5))],
      by rw [if_pos (Or.inl (show rendersAndCounts s data length from Or.inr (Or.inl h5)))]⟩
  by_cases h6 : data 0 % 256 = CMD_SET_RANGE
  · rw [dispatch_set_range s data length h6]
    constructor <;>
    · simp [rendersAndCounts, validReconfig, h6]
      repeat' split
      all_goals rfl
  by_cases h7 : data 0 % 256 = CMD_SET_ALL
  · rw [dispatch_set_all s data length h7]
    by_cases hE : length < 1 + s.total_leds * 3
    · rw [if_pos hE]
      have hC : ¬ rendersAndCounts s data length := by
        simp [rendersAndCounts, h7]
        omega
      have hV : ¬ validReconfig data length := by
        simp [validReconfig, h7]
      exact ⟨by rw [if_neg hC], by rw [if_neg (by tauto)]⟩
    · rw [if_neg hE]
      have hC : rendersAndCounts s data length :=
        show rendersAndCounts s data length from Or.inr (Or.inr ⟨h7, by omega⟩)
      exact ⟨by rw [if_pos hC], by rw [if_pos (Or.inl hC)]⟩
  by_cases h8 : data 0 % 256 = CMD_CONFIG
  · rw [dispatch_config s data length h8]
    have hC : ¬ rendersAndCounts s data length := by
      simp [rendersAndCounts, h8]
    by_cases hl4 : length < 4
    · rw [if_pos hl4]
      have hV : ¬ validReconfig data length := by
        simp [validReconfig]
        omega
      exact ⟨by rw [if_neg hC], by rw [if_neg (by tauto)]⟩
    · rw [if_neg hl4]
      by_cases hns : data 1 % 256 = 0 ∨ MAX_STRIPS < data 1 % 256
      · rw [if_pos hns]
        have hV : ¬ validReconfig data length := by
          simp only [validReconfig, MAX_STRIPS_eq]
          simp only [MAX_STRIPS_eq] at hns
          omega
        exact ⟨by rw [if_neg hC], by rw [if_neg (by tauto)]⟩
      · rw [if_neg hns]
        by_cases hnl : (data 2 % 256) * 256 + data 3 % 256 = 0
            ∨ MAX_LEDS_PER_STRIP < (data 2 % 256) * 256 + data 3 % 256
        · rw [if_pos hnl]
          have hV : ¬ validReconfig data length := by
            simp only [validReconfig, MAX_LEDS_PER_STRIP_eq]
            simp only [MAX_LEDS_PER_STRIP_eq] at hnl
            omega
          exact ⟨by rw [if_neg hC], by rw [if_neg (by tauto)]⟩
        · have hV : validReconfig data length := by
            simp only [MAX_STRIPS_eq] at hns
            simp only [MAX_LEDS_PER_STRIP_eq] at hnl
            exact ⟨h8, by omega, by omega, by simp only [MAX_STRIPS_eq]; omega,
              by omega, by simp only [MAX_LEDS_PER_STRIP_eq]; omega⟩
          rw [if_neg hnl]
          refine ⟨?_, ?_⟩
          · rw [if_neg hC]
            by_cases h5L : 5 ≤ length
            · rw [if_pos h5L]
            · rw [if_neg h5L]
          · rw [if_pos (Or.inr hV)]
            by_cases h5L : 5 ≤ length
            · rw [if_pos h5L]
            · rw [if_neg h5L]
  rw [dispatch_default s data length h1 h2 h3 h4 h5 h6 h7 h8]
  have hC : ¬ rendersAndCounts s data length := by
    rintro (h | h | ⟨h, _⟩)
    · exact h4 h
    · exact h5 h
    · exact h7 h
  have hV : ¬ validReconfig data length := fun h => h8 h.1
  exact ⟨by rw [if_neg hC], by rw [if_neg (by tauto)]⟩

/-- Concrete render frame [0x03]. -/
def dShow : Nat → Nat := fun i => if i = 0 then 3 else 0

/-- Claim C2, amended: `frames_rendered` is incremented exactly once by
render, clear, and a size-valid set-all (the commands of
`rendersAndCounts`); a validated reconfigure hands the buffer to the
output driver (one `show_calls` step) but does NOT increment
`frames_rendered`; every other command, including every rejected one,
performs no render and leaves both counters unchanged. -/
theorem claim_C2_render_counter (s : State) (data : Nat → Nat) (length : Nat)
    (hlen : 1 ≤ length) :
    (rendersAndCounts s data length →
      ((process_command s data length).1.frames_rendered
          = (s.frames_rendered + 1) % 4294967296
        ∧ (process_command s data length).1.show_calls = s.show_calls + 1))
    ∧ (validReconfig data length →
      ((process_command s data length).1.frames_rendered = s.frames_rendered
        ∧ (process_command s data length).1.show_calls = s.show_calls + 1))
    ∧ (¬ rendersAndCounts s data length → ¬ validReconfig data length →
      ((process_command s data length).1.frames_rendered = s.frames_rendered
        ∧ (process_command s data length).1.show_calls = s.show_calls)) := by
  rw [process_command_pos s data length (by omega)]
  obtain ⟨hf, hs⟩ := dispatch_render_counters (precheck s data length) data length
  have hRC : rendersAndCounts (precheck s data length) data length
      ↔ rendersAndCounts s data length := by
    unfold rendersAndCounts
    rw [precheck_total_leds]
  rw [precheck_frames_rendered] at hf
  rw [precheck_show_calls] at hs
  refine ⟨fun hR => ⟨?_, ?_⟩, fun hV => ⟨?_, ?_⟩, fun hnR hnV => ⟨?_, ?_⟩⟩
  · rw [hf, if_pos (hRC.mpr hR)]
  · rw [hs, if_pos (Or.inl (hRC.mpr hR))]
  · have hnR : ¬ rendersAndCounts s data length := by
      have h7 := hV.1
      rintro (h | h | ⟨h, _⟩) <;> rw [h7] at h <;> simp at h
    rw [hf, if_neg (fun hx => hnR (hRC.mp hx))]
  · rw [hs, if_pos (Or.inr hV)]
  · rw [hf, if_neg (fun hx => hnR (hRC.mp hx))]
  · rw [hs, if_neg (fun hx => hx.elim (fun hx2 => hnR (hRC.mp hx2)) hnV)]

/-- Counterexample to claim C2 as stated: a validated reconfigure frame
([0x07, 3, 0, 2, 1] against the test state) performs a render — the
buffer is handed to the output driver, `show_calls` goes up by one — yet
`frames_rendered` does not increase. -/
theorem claim_C2_render_counter_counterexample :
    (process_command testState dCfg 5).1.show_calls = testState.show_calls + 1
      ∧ (process_command testState dCfg 5).1.frames_rendered
          = testState.frames_rendered := by
  constructor <;> decide

/-- Witness for amended claim C2: the render frame [0x03] of length 1
increments the frame counter once and performs one render. -/
theorem claim_C2_render_counter_witness :
    1 ≤ 1
      ∧ (rendersAndCounts testState dShow 1 →
        ((process_command testState dShow 1).1.frames_rendered
            = (testState.frames_rendered + 1) % 4294967296
          ∧ (process_command testState dShow 1).1.show_calls
              = testState.show_calls + 1)) :=
  ⟨by decide, (claim_C2_render_counter testState dShow 1 (by decide)).1⟩

theorem setRangeLoop_eq_writeRange (a l total : Nat) (data : Nat → Nat) (start : Nat) :
    ∀ (rem i : Nat) (leds : Nat → CRGB), start + i + rem ≤ total →
      setRangeLoop a l total data start i rem leds
        = writeRange leds rem (fun k => logical_to_physical a l (start + (i + k)))
            (fun k => ⟨data (4 + (i + k) * 3) % 256, data (4 + (i + k) * 3 + 1) % 256,
              data (4 + (i + k) * 3 + 2) % 256⟩) := by
  intro rem
  induction rem with
  | zero => intro i leds h; rfl
  | succ m ih =>
      intro i leds h
      show (if total ≤ start + i then leds
        else setRangeLoop a l total data start (i + 1) m
          (setLed leds (logical_to_physical a l (start + i))
            ⟨data (4 + i * 3) % 256, data (4 + i * 3 + 1) % 256, data (4 + i * 3 + 2) % 256⟩))
        = _
      rw [if_neg (by omega), ih (i + 1) _ (by omega), writeRange_succ_front]
      have hfg : (fun k => logical_to_physical a l (start + (i + 1 + k)))
          = (fun k => logical_to_physical a l (start + (i + (k + 1)))) := by
        funext k
        have e : i + 1 + k = i + (k + 1) := by omega
        rw [e]
      have hfv : (fun k => (⟨data (4 + (i + 1 + k) * 3) % 256,
            data (4 + (i + 1 + k) * 3 + 1) % 256,
            data (4 + (i + 1 + k) * 3 + 2) % 256⟩ : CRGB))
          = (fun k => (⟨data (4 + (i + (k + 1)) * 3) % 256,
            data (4 + (i + (k + 1)) * 3 + 1) % 256,
            data (4 + (i + (k + 1)) * 3 + 2) % 256⟩ : CRGB)) := by
        funext k
        have e : i + 1 + k = i + (k + 1) := by omega
        rw [e]
      rw [hfg, hfv]
      rfl

theorem setRangeLoop_from_zero (a l total : Nat) (data : Nat → Nat) (start rem : Nat)
    (leds : Nat → CRGB) (h : start + rem ≤ total) :
    setRangeLoop a l total data start 0 rem leds
      = writeRange leds rem (fun k => logical_to_physical a l (start + k))
          (fun k => ⟨data (4 + k * 3) % 256, data (4 + k * 3 + 1) % 256,
            data (4 + k * 3 + 2) % 256⟩) := by
  rw [setRangeLoop_eq_writeRange a l total data start rem 0 leds (by omega)]
  have hfg : (fun k => logical_to_physical a l (start + (0 + k)))
      = (fun k => logical_to_physical a l (start + k)) := by
    funext k
    rw [Nat.zero_add]
  have hfv : (fun k => (⟨data (4 + (0 + k) * 3) % 256, data (4 + (0 + k) * 3 + 1) % 256,
        data (4 + (0 + k) * 3 + 2) % 256⟩ : CRGB))
      = (fun k => (⟨data (4 + k * 3) % 256, data (4 + k * 3 + 1) % 256,
        data (4 + k * 3 + 2) % 256⟩ : CRGB)) := by
    funext k
    rw [Nat.zero_add]
  rw [hfg, hfv]

/-- Effect of the pair of tail-zeroing loops used by set-all and
reconfigure: inside the buffer, the addressable region is untouched and
everything else becomes black. -/
theorem blackoutPair_apply (leds : Nat → CRGB) (a l p : Nat) (h1 : 1 ≤ a)
    (h2 : a ≤ MAX_STRIPS) (hp : p < MAX_TOTAL_LEDS) :
    blackoutTail (blackoutTail leds 0 a l) a (MAX_STRIPS - a) 0 p
      = if addressable a l p then leds p else CRGB.black := by
  rw [blackoutTail_apply, blackoutTail_apply]
  simp only [MAX_LEDS_PER_STRIP_eq, MAX_STRIPS_eq, addressable] at *
  have hT : MAX_TOTAL_LEDS = 3500 := rfl
  rw [hT] at hp
  have hm : p % 500 < 500 := Nat.mod_lt p (by norm_num)
  have hd : p / 500 < 7 := by omega
  by_cases hA : p / 500 < a ∧ p % 500 < l
  · rw [if_neg (by omega), if_neg (by omega), if_pos hA]
  · by_cases hst : a ≤ p / 500
    · rw [if_pos (by omega), if_neg (by omega)]
    · rw [if_neg (by omega), if_pos (by omega), if_neg (by omega)]

/-- Effect of the pair of zeroing loops of the clear command: every slot
inside the buffer becomes black. -/
theorem clearPair_apply (leds : Nat → CRGB) (a p : Nat) (h2 : a ≤ MAX_STRIPS)
    (hp : p < MAX_TOTAL_LEDS) :
    blackoutTail (blackoutTail leds 0 a 0) a (MAX_STRIPS - a) 0 p = CRGB.black := by
  rw [blackoutTail_apply, blackoutTail_apply]
  simp only [MAX_LEDS_PER_STRIP_eq, MAX_STRIPS_eq] at *
  have hT : MAX_TOTAL_LEDS = 3500 := rfl
  rw [hT] at hp
  have hm : p % 500 < 500 := Nat.mod_lt p (by norm_num)
  have hd : p / 500 < 7 := by omega
  by_cases hst : a ≤ p / 500
  · rw [if_pos (by omega)]
  · rw [if_neg (by omega), if_pos (by omega)]

/-- Concrete set-all frame [0x06, 10, 20, 30, 0, 0, 0] for the one-pixel
configuration of `oneState`. -/
def dAll : Nat → Nat := fun i =>
  if i = 0 then 6 else if i = 1 then 10 else if i = 2 then 20
  else if i = 3 then 30 else 0

/-- A minimal reachable state: 1 strip of length 1. -/
def oneState : State where
  leds := blankLeds
  active_strips := 1
  leds_per_strip := 1
  total_leds := 1
  global_brightness := 50
  frames_rendered := 0
  zero_payload_packets := 0
  show_calls := 0
  debug_logging := false

/-- Claim C1: a set-all frame of at least the expected size
`1 + 3 * total_leds` writes every logical pixel from its payload triple,
blanks every physical slot outside the addressable region, and performs
exactly one render (counted in `frames_rendered` and in the hand-off
count); a shorter frame is rejected with the buffer, the configuration
and the brightness unchanged. -/
theorem claim_C1_set_all (s : State) (data : Nat → Nat) (length : Nat)
    (hv : validConfig s) (hlen : 1 ≤ length) (hcmd : data 0 % 256 = CMD_SET_ALL) :
    (1 + s.total_leds * 3 ≤ length →
      ((process_command s data length).2 = false
        ∧ (∀ i, i < s.total_leds →
            (process_command s data length).1.leds
                (logical_to_physical s.active_strips s.leds_per_strip i)
              = ⟨data (1 + i * 3) % 256, data (1 + i * 3 + 1) % 256,
                  data (1 + i * 3 + 2) % 256⟩)
        ∧ (∀ p, p < MAX_TOTAL_LEDS →
            ¬ addressable s.active_strips s.leds_per_strip p →
            (process_command s data length).1.leds p = CRGB.black)
        ∧ (process_command s data length).1.frames_rendered
            = (s.frames_rendered + 1) % 4294967296
        ∧ (process_command s data length).1.show_calls = s.show_calls + 1))
    ∧ (length < 1 + s.total_leds * 3 →
      ((process_command s data length).2 = true
        ∧ (process_command s data length).1.leds = s.leds
        ∧ (process_command s data length).1.active_strips = s.active_strips
        ∧ (process_command s data length).1.leds_per_strip = s.leds_per_strip
        ∧ (process_command s data length).1.total_leds = s.total_leds
        ∧ (process_command s data length).1.global_brightness = s.global_brightness)) := by
  obtain ⟨ha1, ha2, hl1, hl2, htot⟩ := hv
  rw [process_command_pos s data length (by omega), dispatch_set_all _ data length hcmd]
  simp only [precheck_total_leds, precheck_leds, precheck_active_strips,
    precheck_leds_per_strip, precheck_frames_rendered, precheck_show_calls,
    precheck_global_brightness]
  constructor
  · intro hE
    rw [if_neg (by omega)]
    refine ⟨rfl, ?_, ?_, rfl, rfl⟩
    · intro i hi
      dsimp only
      have hq : logical_to_physical s.active_strips s.leds_per_strip i < MAX_TOTAL_LEDS :=
        logical_to_physical_lt s.active_strips s.leds_per_strip i ha1 ha2 hl1 hl2
      rw [blackoutPair_apply _ _ _ _ ha1 ha2 hq,
        if_pos (logical_to_physical_addressable s.active_strips s.leds_per_strip i
          ha1 ha2 hl1 hl2 (htot ▸ hi))]
      exact writeRange_hit _ _ _ _ _ i hi rfl
        (fun k hk hke => logical_to_physical_injOn s.active_strips s.leds_per_strip k i
          ha1 ha2 hl1 hl2 (htot ▸ hk) (htot ▸ hi) hke)
    · intro p hp hna
      dsimp only
      rw [blackoutPair_apply _ _ _ _ ha1 ha2 hp, if_neg hna]
  · intro hlt
    rw [if_pos hlt]
    exact ⟨rfl, precheck_leds s data length, precheck_active_strips s data length,
      precheck_leds_per_strip s data length, precheck_total_leds s data length,
      precheck_global_brightness s data length⟩

/-- Witness for claim C1: in the one-pixel state the frame
[6, 10, 20, 30] of exactly the expected size paints pixel 0 and bumps the
frame counter. -/
theorem claim_C1_set_all_witness :
    (validConfig oneState ∧ 1 ≤ 4 ∧ dAll 0 % 256 = CMD_SET_ALL
        ∧ 1 + oneState.total_leds * 3 ≤ 4)
      ∧ ((process_command oneState dAll 4).2 = false
        ∧ (process_command oneState dAll 4).1.frames_rendered
            = (oneState.frames_rendered + 1) % 4294967296
        ∧ (process_command oneState dAll 4).1.show_calls = oneState.show_calls + 1) := by
  have h := (claim_C1_set_all oneState dAll 4 (by decide) (by decide) (by decide)).1
    (by decide)
  exact ⟨⟨by decide, by decide, by decide, by decide⟩, h.1, h.2.2.2.1, h.2.2.2.2⟩

/-- Concrete set-range frame [0x05, 0, 1, 2, 1, 2, 3, 4, 5, 6]: start 1,
count 2, colors (1, 2, 3) and (4, 5, 6). -/
def dRange : Nat → Nat := fun i =>
  if i = 0 then 5 else if i = 2 then 1 else if i = 3 then 2
  else if i = 4 then 1 else if i = 5 then 2 else if i = 6 then 3
  else if i = 7 then 4 else if i = 8 then 5 else if i = 9 then 6 else 0

/-- Claim C7: a set-range frame that carries its declared payload
(`length ≥ 4 + 3 * count`) is a silent no-op when `start ≥ total_leds`;
otherwise it writes the logical pixels
`start .. start + min count (total_leds - start) - 1` from the payload in
order — the count is clamped down instead of rejected — and leaves every
other pixel and every out-of-buffer slot unchanged.  A frame shorter than
`4 + 3 * count` never mutates the buffer, and is rejected with a warning
except in the silent `start ≥ total_leds` sub-case (which the table files
under rejection as a silent no-op). -/
theorem claim_C7_set_range (s : State) (data : Nat → Nat) (length : Nat)
    (hv : validConfig s) (hlen : 1 ≤ length) (hcmd : data 0 % 256 = CMD_SET_RANGE) :
    (4 + (data 3 % 256) * 3 ≤ length →
      ((s.total_leds ≤ (data 1 % 256) * 256 + data 2 % 256 →
          ((process_command s data length).2 = false
            ∧ (process_command s data length).1.leds = s.leds))
        ∧ ((data 1 % 256) * 256 + data 2 % 256 < s.total_leds →
          ((process_command s data length).2 = false
            ∧ (∀ i, i < min (data 3 % 256)
                  (s.total_leds - ((data 1 % 256) * 256 + data 2 % 256)) →
                (process_command s data length).1.leds
                    (logical_to_physical s.active_strips s.leds_per_strip
                      ((data 1 % 256) * 256 + data 2 % 256 + i))
                  = ⟨data (4 + i * 3) % 256, data (4 + i * 3 + 1) % 256,
                      data (4 + i * 3 + 2) % 256⟩)
            ∧ (∀ j, j < s.total_leds →
                (j < (data 1 % 256) * 256 + data 2 % 256
                  ∨ (data 1 % 256) * 256 + data 2 % 256
                      + min (data 3 % 256)
                          (s.total_leds - ((data 1 % 256) * 256 + data 2 % 256)) ≤ j) →
                (process_command s data length).1.leds
                    (logical_to_physical s.active_strips s.leds_per_strip j)
                  = s.leds (logical_to_physical s.active_strips s.leds_per_strip j))))))
    ∧ (length < 4 + (data 3 % 256) * 3 →
      ((process_command s data length).1.leds = s.leds
        ∧ ((length < 4 ∨ (data 1 % 256) * 256 + data 2 % 256 < s.total_leds) →
            (process_command s data length).2 = true)
        ∧ (4 ≤ length → s.total_leds ≤ (data 1 % 256) * 256 + data 2 % 256 →
            (process_command s data length).2 = false))) := by
  obtain ⟨ha1, ha2, hl1, hl2, htot⟩ := hv
  have hcb : data 3 % 256 < 256 := Nat.mod_lt (data 3) (by norm_num)
  rw [process_command_pos s data length (by omega), dispatch_set_range _ data length hcmd]
  simp only [precheck_total_leds, precheck_leds, precheck_active_strips,
    precheck_leds_per_strip]
  constructor
  · intro hE
    constructor
    · intro hge
      rw [if_neg (by omega), if_pos hge]
      exact ⟨rfl, precheck_leds s data length⟩
    · intro hlt
      rw [if_neg (by omega), if_neg (by omega), if_neg (by omega)]
      have hcount2 : (if s.total_leds < (data 1 % 256) * 256 + data 2 % 256 + data 3 % 256
            then (s.total_leds - ((data 1 % 256) * 256 + data 2 % 256)) % 256
            else data 3 % 256)
          = min (data 3 % 256) (s.total_leds - ((data 1 % 256) * 256 + data 2 % 256)) := by
        split
        · rw [Nat.mod_eq_of_lt (by omega)]
          omega
        · omega
      rw [hcount2, setRangeLoop_from_zero _ _ _ _ _ _ _ (by omega)]
      refine ⟨rfl, ?_, ?_⟩
      · intro i hi
        dsimp only
        exact writeRange_hit _ _ _ _ _ i hi rfl
          (fun k hk hke => by
            have := logical_to_physical_injOn s.active_strips s.leds_per_strip
              ((data 1 % 256) * 256 + data 2 % 256 + k)
              ((data 1 % 256) * 256 + data 2 % 256 + i)
              ha1 ha2 hl1 hl2 (by omega) (by omega) hke
            omega)
      · intro j hj hout
        dsimp only
        apply writeRange_miss
        intro k hk hke
        have := logical_to_physical_injOn s.active_strips s.leds_per_strip
          ((data 1 % 256) * 256 + data 2 % 256 + k) j
          ha1 ha2 hl1 hl2 (by omega) (htot ▸ hj) hke
        omega
  · intro hlt2
    by_cases hl4 : length < 4
    · rw [if_pos hl4]
      exact ⟨precheck_leds s data length, fun _ => rfl, fun h4 => absurd h4 (by omega)⟩
    · rw [if_neg hl4]
      by_cases hge : s.total_leds ≤ (data 1 % 256) * 256 + data 2 % 256
      · rw [if_pos hge]
        exact ⟨precheck_leds s data length, fun hor => ((by omega : False).elim),
          fun _ _ => rfl⟩
      · rw [if_neg hge, if_pos (by omega)]
        exact ⟨precheck_leds s data length, fun _ => rfl, fun _ hge2 => absurd hge2 hge⟩

/-- Witness for claim C7: in the test state (2 strips of length 3) the
frame [5, 0, 1, 2, 1, 2, 3, 4, 5, 6] of length 10 writes pixels 1 and 2
with (1, 2, 3) and (4, 5, 6). -/
theorem claim_C7_set_range_witness :
    (validConfig testState ∧ 1 ≤ 10 ∧ dRange 0 % 256 = CMD_SET_RANGE
        ∧ 4 + (dRange 3 % 256) * 3 ≤ 10
        ∧ (dRange 1 % 256) * 256 + dRange 2 % 256 < testState.total_leds
        ∧ 0 < min (dRange 3 % 256)
            (testState.total_leds - ((dRange 1 % 256) * 256 + dRange 2 % 256)))
      ∧ ((process_command testState dRange 10).2 = false
        ∧ (process_command testState dRange 10).1.leds
            (logical_to_physical testState.active_strips testState.leds_per_strip
              ((dRange 1 % 256) * 256 + dRange 2 % 256 + 0))
          = ⟨dRange (4 + 0 * 3) % 256, dRange (4 + 0 * 3 + 1) % 256,
              dRange (4 + 0 * 3 + 2) % 256⟩) := by
  have h := ((claim_C7_set_range testState dRange 10 (by decide) (by decide)
    (by decide)).1 (by decide)).2 (by decide)
  exact ⟨⟨by decide, by decide, by decide, by decide, by decide, by decide⟩,
    h.1, h.2.1 0 (by decide)⟩

/-- Claim C6: if every physical slot outside the addressable region is
black, then after processing any frame — including a reconfigure, judged
against the configuration it installs — every slot outside the
then-current addressable region is still black. -/
theorem claim_C6_tail_invariant (s : State) (data : Nat → Nat) (length : Nat)
    (hv : validConfig s)
    (hinv : ∀ p, p < MAX_TOTAL_LEDS →
      ¬ addressable s.active_strips s.leds_per_strip p → s.leds p = CRGB.black) :
    ∀ p, p < MAX_TOTAL_LEDS →
      ¬ addressable (process_command s data length).1.active_strips
          (process_command s data length).1.leds_per_strip p →
      (process_command s data length).1.leds p = CRGB.black := by
  obtain ⟨ha1, ha2, hl1, hl2, htot⟩ := hv
  have hcb : data 3 % 256 < 256 := Nat.mod_lt (data 3) (by norm_num)
  by_cases h0 : length = 0
  · unfold process_command
    rw [if_pos h0]
    exact hinv
  rw [process_command_pos s data length h0]
  by_cases h1 : data 0 % 256 = CMD_PING
  · rw [dispatch_ping _ data length h1]
    dsimp only
    simp only [precheck_leds, precheck_active_strips, precheck_leds_per_strip]
    exact hinv
  by_cases h2 : data 0 % 256 = CMD_SET_PIXEL
  · rw [dispatch_set_pixel _ data length h2]
    simp only [precheck_total_leds]
    by_cases hL : length < 6
    · rw [if_pos hL]
      dsimp only
      simp only [precheck_leds, precheck_active_strips, precheck_leds_per_strip]
      exact hinv
    · rw [if_neg hL]
      by_cases hpix : (data 1 % 256) * 256 + data 2 % 256 < s.total_leds
      · rw [if_pos hpix]
        dsimp only
        simp only [precheck_leds, precheck_active_strips, precheck_leds_per_strip]
        intro p hp hna
        rw [setLed_other]
        · exact hinv p hp hna
        · intro he
          apply hna
          rw [he]
          exact logical_to_physical_addressable s.active_strips s.leds_per_strip _
            ha1 ha2 hl1 hl2 (htot ▸ hpix)
      · rw [if_neg hpix]
        dsimp only
        simp only [precheck_leds, precheck_active_strips, precheck_leds_per_strip]
        exact hinv
  by_cases h3 : data 0 % 256 = CMD_SET_BRIGHTNESS
  · rw [dispatch_set_brightness _ data length h3]
    by_cases hL : length < 2
    · rw [if_pos hL]
      dsimp only
      simp only [precheck_leds, precheck_active_strips, precheck_leds_per_strip]
      exact hinv
    · rw [if_neg hL]
      dsimp only
      simp only [precheck_leds, precheck_active_strips, precheck_leds_per_strip]
      exact hinv
  by_cases h4 : data 0 % 256 = CMD_SHOW
  · rw [dispatch_show_cmd _ data length h4]
    dsimp only
    simp only [precheck_leds, precheck_active_strips, precheck_leds_per_strip]
    exact hinv
  by_cases h5 : data 0 % 256 = CMD_CLEAR
  · rw [dispatch_clear _ data length h5]
    dsimp only
    simp only [precheck_leds, precheck_active_strips, precheck_leds_per_strip]
    intro p hp _
    exact clearPair_apply s.leds s.active_strips p ha2 hp
  by_cases h6 : data 0 % 256 = CMD_SET_RANGE
  · rw [dispatch_set_range _ data length h6]
    simp only [precheck_total_leds]
    by_cases hl4 : length < 4
    · rw [if_pos hl4]
      dsimp only
      simp only [precheck_leds, precheck_active_strips, precheck_leds_per_strip]
      exact hinv
    · rw [if_neg hl4]
      by_cases hge : s.total_leds ≤ (data 1 % 256) * 256 + data 2 % 256
      · rw [if_pos hge]
        dsimp only
        simp only [precheck_leds, precheck_active_strips, precheck_leds_per_strip]
        exact hinv
      · rw [if_neg hge]
        by_cases hexp : length < 4 + (data 3 % 256) * 3
        · rw [if_pos hexp]
          dsimp only
          simp only [precheck_leds, precheck_active_strips, precheck_leds_per_strip]
          exact hinv
        · rw [if_neg hexp]
          dsimp only
          simp only [precheck_leds, precheck_active_strips, precheck_leds_per_strip]
          have hcount2 : (if s.total_leds < (data 1 % 256) * 256 + data 2 % 256 + data 3 % 256
                then (s.total_leds - ((data 1 % 256) * 256 + data 2 % 256)) % 256
                else data 3 % 256)
              = min (data 3 % 256)
                  (s.total_leds - ((data 1 % 256) * 256 + data 2 % 256)) := by
            split
            · rw [Nat.mod_eq_of_lt (by omega)]
              omega
            · omega
          rw [hcount2, setRangeLoop_from_zero _ _ _ _ _ _ _ (by omega)]
          intro p hp hna
          rw [writeRange_miss]
          · exact hinv p hp hna
          · intro k hk he
            apply hna
            rw [← he]
            exact logical_to_physical_addressable s.active_strips s.leds_per_strip _
              ha1 ha2 hl1 hl2 (by omega)
  by_cases h7 : data 0 % 256 = CMD_SET_ALL
  · rw [dispatch_set_all _ data length h7]
    simp only [precheck_total_leds]
    by_cases hE : length < 1 + s.total_leds * 3
    · rw [if_pos hE]
      dsimp only
      simp only [precheck_leds, precheck_active_strips, precheck_leds_per_strip]
      exact hinv
    · rw [if_neg hE]
      dsimp only
      simp only [precheck_leds, precheck_active_strips, precheck_leds_per_strip]
      intro p hp hna
      rw [blackoutPair_apply _ _ _ _ ha1 ha2 hp, if_neg hna]
  by_cases h8 : data 0 % 256 = CMD_CONFIG
  · rw [dispatch_config _ data length h8]
    by_cases hl4 : length < 4
    · rw [if_pos hl4]
      dsimp only
      simp only [precheck_leds, precheck_active_strips, precheck_leds_per_strip]
      exact hinv
    · rw [if_neg hl4]
      by_cases hns : data 1 % 256 = 0 ∨ MAX_STRIPS < data 1 % 256
      · rw [if_pos hns]
        dsimp only
        simp only [precheck_leds, precheck_active_strips, precheck_leds_per_strip]
        exact hinv
      · rw [if_neg hns]
        by_cases hnl : (data 2 % 256) * 256 + data 3 % 256 = 0
            ∨ MAX_LEDS_PER_STRIP < (data 2 % 256) * 256 + data 3 % 256
        · rw [if_pos hnl]
          dsimp only
          simp only [precheck_leds, precheck_active_strips, precheck_leds_per_strip]
          exact hinv
        · rw [if_neg hnl]
          simp only [MAX_STRIPS_eq] at hns
          have hns1 : 1 ≤ data 1 % 256 := by omega
          have hns2 : data 1 % 256 ≤ MAX_STRIPS := by
            simp only [MAX_STRIPS_eq]
            omega
          by_cases h5L : 5 ≤ length
          · rw [if_pos h5L]
            dsimp only
            simp only [precheck_leds, precheck_active_strips, precheck_leds_per_strip]
            intro p hp hna
            rw [blackoutPair_apply _ _ _ _ hns1 hns2 hp, if_neg hna]
          · rw [if_neg h5L]
            dsimp only
            simp only [precheck_leds, precheck_active_strips, precheck_leds_per_strip]
            intro p hp hna
            rw [blackoutPair_apply _ _ _ _ hns1 hns2 hp, if_neg hna]
  rw [dispatch_default _ data length h1 h2 h3 h4 h5 h6 h7 h8]
  dsimp only
  simp only [precheck_leds, precheck_active_strips, precheck_leds_per_strip]
  exact hinv

/-- Witness for claim C6: the test state has an all-black buffer, so the
invariant holds before; after a render command the non-addressable slot 3
(offset 3 of strip 0, beyond the per-strip length 3) is still black. -/
theorem claim_C6_tail_invariant_witness :
    (validConfig testState
        ∧ (∀ p, p < MAX_TOTAL_LEDS →
            ¬ addressable testState.active_strips testState.leds_per_strip p →
            testState.leds p = CRGB.black))
      ∧ (process_command testState dShow 1).1.leds 3 = CRGB.black :=
  ⟨⟨by decide, fun _ _ _ => rfl⟩,
    claim_C6_tail_invariant testState dShow 1 (by decide) (fun _ _ _ => rfl)
      3 (by decide) (by decide)⟩

theorem orFold_succ (data : Nat → Nat) (n : Nat) :
    orFold data (n + 1) = orFold data n ||| data (n + 1) % 256 := by
  unfold orFold
  rw [List.range_succ, List.foldl_append]
  rfl

theorem orFold_congr (d1 d2 : Nat → Nat) (n : Nat)
    (h : ∀ i, 1 ≤ i → i ≤ n → d1 i = d2 i) : orFold d1 n = orFold d2 n := by
  induction n with
  | zero => rfl
  | succ m ih =>
      rw [orFold_succ, orFold_succ, ih (fun i hi1 hi2 => h i hi1 (by omega)),
        h (m + 1) (by omega) (Nat.le_refl _)]

theorem payload_or_congr (d1 d2 : Nat → Nat) (length : Nat)
    (h : ∀ i, i < length → d1 i = d2 i) :
    payload_or d1 length = payload_or d2 length := by
  unfold payload_or
  exact orFold_congr d1 d2 (length - 1) (fun i hi1 hi2 => h i (by omega))

theorem precheck_congr (s : State) (d1 d2 : Nat → Nat) (length : Nat)
    (h : ∀ i, i < length → d1 i = d2 i) :
    precheck s d1 length = precheck s d2 length := by
  unfold precheck
  rw [payload_or_congr d1 d2 length h]

theorem setRangeLoop_congr (a l total : Nat) (d1 d2 : Nat → Nat) (start length : Nat)
    (h : ∀ pos, pos < length → d1 pos = d2 pos) :
    ∀ (rem i : Nat) (leds : Nat → CRGB), 4 + (i + rem) * 3 ≤ length →
      setRangeLoop a l total d1 start i rem leds
        = setRangeLoop a l total d2 start i rem leds := by
  intro rem
  induction rem with
  | zero => intro i leds _; rfl
  | succ m ih =>
      intro i leds hb
      show (if total ≤ start + i then leds
          else setRangeLoop a l total d1 start (i + 1) m
            (setLed leds (logical_to_physical a l (start + i))
              ⟨d1 (4 + i * 3) % 256, d1 (4 + i * 3 + 1) % 256, d1 (4 + i * 3 + 2) % 256⟩))
        = (if total ≤ start + i then leds
          else setRangeLoop a l total d2 start (i + 1) m
            (setLed leds (logical_to_physical a l (start + i))
              ⟨d2 (4 + i * 3) % 256, d2 (4 + i * 3 + 1) % 256, d2 (4 + i * 3 + 2) % 256⟩))
      by_cases hbrk : total ≤ start + i
      · rw [if_pos hbrk, if_pos hbrk]
      · rw [if_neg hbrk, if_neg hbrk, h (4 + i * 3) (by omega),
          h (4 + i * 3 + 1) (by omega), h (4 + i * 3 + 2) (by omega)]
        exact ih (i + 1) _ (by omega)

/-- Claim C10: under any reachable configuration, processing any frame
only ever writes buffer slots below `MAX_TOTAL_LEDS` (slots at or beyond
the capacity are untouched), and only ever reads frame bytes at positions
below the frame length (two frames agreeing below the length are
processed identically). -/
theorem claim_C10_memory_safety (s : State) (data : Nat → Nat) (length : Nat)
    (hv : validConfig s) :
    (∀ p, MAX_TOTAL_LEDS ≤ p →
      (process_command s data length).1.leds p = s.leds p)
    ∧ (∀ data2, (∀ i, i < length → data i = data2 i) →
        process_command s data length = process_command s data2 length) := by
  obtain ⟨ha1, ha2, hl1, hl2, htot⟩ := hv
  have hcb : data 3 % 256 < 256 := Nat.mod_lt (data 3) (by norm_num)
  have hS7 : MAX_STRIPS = 7 := rfl
  constructor
  · -- writes stay inside the buffer
    intro p hp
    by_cases h0 : length = 0
    · unfold process_command
      rw [if_pos h0]
    rw [process_command_pos s data length h0]
    have hq : ∀ L, logical_to_physical s.active_strips s.leds_per_strip L ≠ p :=
      fun L he => absurd (he ▸ logical_to_physical_lt s.active_strips s.leds_per_strip L
        ha1 ha2 hl1 hl2) (by omega)
    by_cases h1 : data 0 % 256 = CMD_PING
    · rw [dispatch_ping _ data length h1]
      dsimp only
      rw [precheck_leds]
    by_cases h2 : data 0 % 256 = CMD_SET_PIXEL
    · rw [dispatch_set_pixel _ data length h2]
      simp only [precheck_total_leds]
      by_cases hL : length < 6
      · rw [if_pos hL]
        dsimp only
        rw [precheck_leds]
      · rw [if_neg hL]
        by_cases hpix : (data 1 % 256) * 256 + data 2 % 256 < s.total_leds
        · rw [if_pos hpix]
          dsimp only
          simp only [precheck_leds, precheck_active_strips, precheck_leds_per_strip]
          rw [setLed_other _ _ _ _ (fun he => hq _ he.symm)]
        · rw [if_neg hpix]
          dsimp only
          rw [precheck_leds]
    by_cases h3 : data 0 % 256 = CMD_SET_BRIGHTNESS
    · rw [dispatch_set_brightness _ data length h3]
      by_cases hL : length < 2
      · rw [if_pos hL]
        dsimp only
        rw [precheck_leds]
      · rw [if_neg hL]
        dsimp only
        rw [precheck_leds]
    by_cases h4 : data 0 % 256 = CMD_SHOW
    · rw [dispatch_show_cmd _ data length h4]
      dsimp only
      rw [precheck_leds]
    by_cases h5 : data 0 % 256 = CMD_CLEAR
    · rw [dispatch_clear _ data length h5]
      dsimp only
      simp only [precheck_leds, precheck_active_strips]
      rw [blackoutTail_outside _ _ _ _ _ hp (by omega),
        blackoutTail_outside _ _ _ _ _ hp (by omega)]
    by_cases h6 : data 0 % 256 = CMD_SET_RANGE
    · rw [dispatch_set_range _ data length h6]
      simp only [precheck_total_leds]
      by_cases hl4 : length < 4
      · rw [if_pos hl4]
        dsimp only
        rw [precheck_leds]
      · rw [if_neg hl4]
        by_cases hge : s.total_leds ≤ (data 1 % 256) * 256 + data 2 % 256
        · rw [if_pos hge]
          dsimp only
          rw [precheck_leds]
        · rw [if_neg hge]
          by_cases hexp : length < 4 + (data 3 % 256) * 3
          · rw [if_pos hexp]
            dsimp only
            rw [precheck_leds]
          · rw [if_neg hexp]
            dsimp only
            simp only [precheck_leds, precheck_active_strips, precheck_leds_per_strip]
            have hcount2 : (if s.total_leds
                    < (data 1 % 256) * 256 + data 2 % 256 + data 3 % 256
                  then (s.total_leds - ((data 1 % 256) * 256 + data 2 % 256)) % 256
                  else data 3 % 256)
                = min (data 3 % 256)
                    (s.total_leds - ((data 1 % 256) * 256 + data 2 % 256)) := by
              split
              · rw [Nat.mod_eq_of_lt (by omega)]
                omega
              · omega
            rw [hcount2, setRangeLoop_from_zero _ _ _ _ _ _ _ (by omega)]
            exact writeRange_miss _ _ _ _ _ (fun k _ => hq _)
    by_cases h7 : data 0 % 256 = CMD_SET_ALL
    · rw [dispatch_set_all _ data length h7]
      simp only [precheck_total_leds]
      by_cases hE : length < 1 + s.total_leds * 3
      · rw [if_pos hE]
        dsimp only
        rw [precheck_leds]
      · rw [if_neg hE]
        dsimp only
        simp only [precheck_leds, precheck_active_strips, precheck_leds_per_strip]
        rw [blackoutTail_outside _ _ _ _ _ hp (by omega),
          blackoutTail_outside _ _ _ _ _ hp (by omega)]
        exact writeRange_miss _ _ _ _ _ (fun k _ => hq _)
    by_cases h8 : data 0 % 256 = CMD_CONFIG
    · rw [dispatch_config _ data length h8]
      by_cases hl4 : length < 4
      · rw [if_pos hl4]
        dsimp only
        rw [precheck_leds]
      · rw [if_neg hl4]
        by_cases hns : data 1 % 256 = 0 ∨ MAX_STRIPS < data 1 % 256
        · rw [if_pos hns]
          dsimp only
          rw [precheck_leds]
        · rw [if_neg hns]
          by_cases hnl : (data 2 % 256) * 256 + data 3 % 256 = 0
              ∨ MAX_LEDS_PER_STRIP < (data 2 % 256) * 256 + data 3 % 256
          · rw [if_pos hnl]
            dsimp only
            rw [precheck_leds]
          · rw [if_neg hnl]
            simp only [MAX_STRIPS_eq] at hns
            by_cases h5L : 5 ≤ length
            · rw [if_pos h5L]
              dsimp only
              simp only [precheck_leds]
              rw [blackoutTail_outside _ _ _ _ _ hp (by simp only [MAX_STRIPS_eq]; omega),
                blackoutTail_outside _ _ _ _ _ hp (by simp only [MAX_STRIPS_eq]; omega)]
            · rw [if_neg h5L]
              dsimp only
              simp only [precheck_leds]
              rw [blackoutTail_outside _ _ _ _ _ hp (by simp only [MAX_STRIPS_eq]; omega),
                blackoutTail_outside _ _ _ _ _ hp (by simp only [MAX_STRIPS_eq]; omega)]
    rw [dispatch_default _ data length h1 h2 h3 h4 h5 h6 h7 h8]
    dsimp only
    rw [precheck_leds]
  · -- reads stay inside the frame
    intro data2 h
    by_cases h0 : length = 0
    · unfold process_command
      rw [if_pos h0, if_pos h0]
    rw [process_command_pos s data length h0, process_command_pos s data2 length h0,
      ← precheck_congr s data data2 length h]
    have e0 : data 0 = data2 0 := h 0 (by omega)
    by_cases h1 : data 0 % 256 = CMD_PING
    · rw [dispatch_ping _ data length h1, dispatch_ping _ data2 length (by rw [← e0]; exact h1)]
    by_cases h2 : data 0 % 256 = CMD_SET_PIXEL
    · rw [dispatch_set_pixel _ data length h2,
        dispatch_set_pixel _ data2 length (by rw [← e0]; exact h2)]
      by_cases hL : length < 6
      · rw [if_pos hL, if_pos hL]
      · rw [h 1 (by omega), h 2 (by omega), h 3 (by omega), h 4 (by omega), h 5 (by omega)]
    by_cases h3 : data 0 % 256 = CMD_SET_BRIGHTNESS
    · rw [dispatch_set_brightness _ data length h3,
        dispatch_set_brightness _ data2 length (by rw [← e0]; exact h3)]
      by_cases hL : length < 2
      · rw [if_pos hL, if_pos hL]
      · rw [h 1 (by omega)]
    by_cases h4 : data 0 % 256 = CMD_SHOW
    · rw [dispatch_show_cmd _ data length h4,
        dispatch_show_cmd _ data2 length (by rw [← e0]; exact h4)]
    by_cases h5 : data 0 % 256 = CMD_CLEAR
    · rw [dispatch_clear _ data length h5,
        dispatch_clear _ data2 length (by rw [← e0]; exact h5)]
    by_cases h6 : data 0 % 256 = CMD_SET_RANGE
    · rw [dispatch_set_range _ data length h6,
        dispatch_set_range _ data2 length (by rw [← e0]; exact h6)]
      by_cases hl4 : length < 4
      · rw [if_pos hl4, if_pos hl4]
      · rw [h 1 (by omega), h 2 (by omega), h 3 (by omega)]
        simp only [if_neg hl4]
        by_cases hge : (precheck s data length).total_leds
            ≤ (data2 1 % 256) * 256 + data2 2 % 256
        · simp only [if_pos hge]
        · simp only [if_neg hge]
          by_cases hexp : length < 4 + (data2 3 % 256) * 3
          · simp only [if_pos hexp]
          · simp only [if_neg hexp]
            have hc2le : (if (precheck s data length).total_leds
                    < (data2 1 % 256) * 256 + data2 2 % 256 + data2 3 % 256
                  then ((precheck s data length).total_leds
                      - ((data2 1 % 256) * 256 + data2 2 % 256)) % 256
                  else data2 3 % 256) ≤ data2 3 % 256 := by
              split
              · exact Nat.le_trans (Nat.mod_le _ _) (by omega)
              · exact Nat.le_refl _
            rw [setRangeLoop_congr _ _ _ data data2 _ length h _ 0 _ (by omega)]
    by_cases h7 : data 0 % 256 = CMD_SET_ALL
    · rw [dispatch_set_all _ data length h7,
        dispatch_set_all _ data2 length (by rw [← e0]; exact h7)]
      by_cases hE : length < 1 + (precheck s data length).total_leds * 3
      · rw [if_pos hE, if_pos hE]
      · rw [if_neg hE, if_neg hE]
        rw [writeRange_congr _ _ _
          (fun logical => logical_to_physical (precheck s data length).active_strips
            (precheck s data length).leds_per_strip logical)
          _
          (fun logical =>
            ⟨data2 (1 + logical * 3) % 256, data2 (1 + logical * 3 + 1) % 256,
              data2 (1 + logical * 3 + 2) % 256⟩)
          (fun i hi => ⟨rfl, by
            rw [h (1 + i * 3) (by omega), h (1 + i * 3 + 1) (by omega),
              h (1 + i * 3 + 2) (by omega)]⟩)]
    by_cases h8 : data 0 % 256 = CMD_CONFIG
    · rw [dispatch_config _ data length h8,
        dispatch_config _ data2 length (by rw [← e0]; exact h8)]
      by_cases hl4 : length < 4
      · rw [if_pos hl4, if_pos hl4]
      · rw [h 1 (by omega), h 2 (by omega), h 3 (by omega)]
        by_cases h5L : 5 ≤ length
        · rw [h 4 (by omega)]
        · simp only [if_neg hl4, if_neg h5L]
    rw [dispatch_default _ data length h1 h2 h3 h4 h5 h6 h7 h8,
      dispatch_default _ data2 length (by rw [← e0]; exact h1) (by rw [← e0]; exact h2)
        (by rw [← e0]; exact h3) (by rw [← e0]; exact h4) (by rw [← e0]; exact h5)
        (by rw [← e0]; exact h6) (by rw [← e0]; exact h7) (by rw [← e0]; exact h8)]

/-- Witness for claim C10: with a render frame against the test state,
slot 3500 (the first out-of-buffer index) is untouched, and a frame
agreeing on the single read byte is processed identically. -/
theorem claim_C10_memory_safety_witness :
    validConfig testState
      ∧ (process_command testState dShow 1).1.leds 3500 = testState.leds 3500
      ∧ process_command testState dShow 1 = process_command testState dShow 1 :=
  ⟨by decide,
    (claim_C10_memory_safety testState dShow 1 (by decide)).1 3500 (by decide),
    (claim_C10_memory_safety testState dShow 1 (by decide)).2 dShow (fun _ _ => rfl)⟩

end LedGrid
